import Mathlib

/-!
Verification development for the Converter-Singbox repository (src/main.py).

The file shallowly embeds the link-to-outbound translator of the first
(FastAPI) variant of `main.py` (lines 1-474): JSON values, the Python
library primitives the code relies on (`base64.b64decode` in its lax mode,
`bytes.decode("utf-8")`, `json.loads`, `urllib.parse.unquote` /
`parse_qsl`, `str.replace`, `int`), the four scheme handlers, the
selector-registration helper and the per-line conversion loop.

Modelling conventions:
  * Python dictionaries and JSON objects are association lists with unique
    keys (the JSON parser collapses duplicate keys Python-style: first
    position, last value).
  * JSON numbers are modelled as integers.  The numeric fields the code
    touches (`port`, `aid`, `server_port`) are integral; fractional or
    exponent literals are outside the model and make the JSON parser fail.
  * `int(...)` is modelled for ASCII digit strings with optional sign and
    surrounding ASCII whitespace (Python additionally accepts underscores
    and non-ASCII decimal digits; no input in this development uses them).
  * Mutation is modelled by explicit state passing.  Each handler returns
    the template after the call together with the raised error, if any;
    the conversion loop keeps the returned template and drops the error,
    exactly like the `try/except/continue` in `convert`.
-/

/-- JSON value, the data model of `json.loads` / the template document. -/
inductive JVal where
  | null : JVal
  | bool : Bool → JVal
  | num : Int → JVal
  | str : String → JVal
  | arr : List JVal → JVal
  | obj : List (String × JVal) → JVal

/-- Dictionary lookup, `d.get(k)` returning `none` when the key is absent
or the value is not an object. -/
def jLookup (v : JVal) (k : String) : Option JVal :=
  match v with
  | .obj kvs => (kvs.find? (fun kv => kv.1 == k)).map (fun kv => kv.2)
  | _ => none

/-- `d.get(k, default)`. -/
def jGetD (v : JVal) (k : String) (d : JVal) : JVal :=
  (jLookup v k).getD d

/-- `d[k] = val` on an association list: replace the value in place when
the key exists (Python dicts keep the first-insertion position), append
otherwise. -/
def kvSet (kvs : List (String × JVal)) (k : String) (val : JVal) : List (String × JVal) :=
  match kvs with
  | [] => [(k, val)]
  | kv :: rest => if kv.1 == k then (k, val) :: rest else kv :: kvSet rest k val

/-- `d[k] = val` on a JSON object (identity on non-objects; every use in
the source assigns into a dictionary). -/
def objSet (v : JVal) (k : String) (val : JVal) : JVal :=
  match v with
  | .obj kvs => .obj (kvSet kvs k val)
  | _ => v

/-- Python truthiness: `None`, `False`, `0`, `""`, `[]`, `{}` are falsy. -/
def pyTruthy (v : JVal) : Bool :=
  match v with
  | .null => false
  | .bool b => b
  | .num n => n != 0
  | .str s => s != ""
  | .arr l => !l.isEmpty
  | .obj kvs => !kvs.isEmpty

/-- Python `==` between a string and an arbitrary value: true exactly for
an equal string.  Every equality test in the source compares against a
string (scheme tags, `"tls"`, `"websocket"`, the selector allow-list). -/
def pyEqStr (s : String) (v : JVal) : Bool :=
  match v with
  | .str t => s == t
  | _ => false

/-- Does `pat` occur as a contiguous run inside `s`? (Python `in` on
strings.) -/
def strContainsL (pat : List Char) : List Char → Bool
  | [] => pat.isEmpty
  | c :: rest => pat.isPrefixOf (c :: rest) || strContainsL pat rest

/-- Substring test on strings. -/
def strContains (pat s : String) : Bool :=
  strContainsL pat.toList s.toList

/-- Prefix test on strings (`str.startswith`). -/
def strStartsWith (s pre : String) : Bool :=
  pre.toList.isPrefixOf s.toList

/-- Split a character list on a single separator character
(`str.split(sep)` for a one-character separator: no collapsing, empty
pieces kept). -/
def splitOnCharL (sep : Char) : List Char → List (List Char)
  | [] => [[]]
  | c :: rest =>
    let r := splitOnCharL sep rest
    if c == sep then [] :: r
    else
      match r with
      | [] => [[c]]
      | piece :: more => (c :: piece) :: more

/-- `str.split(sep)` for a one-character separator. -/
def splitOnChar (sep : Char) (s : String) : List String :=
  (splitOnCharL sep s.toList).map List.asString

/-- Is `c` ASCII whitespace (the subset of `str.strip` / `int()` stripping
exercised here)? -/
def isPySpace (c : Char) : Bool :=
  c == ' ' || c == '\t' || c == '\n' || c == '\r' || c == '\x0b' || c == '\x0c'

/-- `str.strip()` restricted to ASCII whitespace (Python also strips other
Unicode whitespace; no input in this development uses any). -/
def pyStrip (s : String) : String :=
  ((s.toList.dropWhile isPySpace).reverse.dropWhile isPySpace).reverse.asString

/-- Python `x in container` for a string `x`: list membership by `==`,
substring test on strings, key membership on dictionaries, `TypeError`
otherwise. -/
def pyIn (x : String) (container : JVal) : Except String Bool :=
  match container with
  | .arr l => .ok (l.any (pyEqStr x))
  | .str s => .ok (strContains x s)
  | .obj kvs => .ok (kvs.any (fun kv => kv.1 == x))
  | _ => .error "argument of type is not iterable"

/-- Simplified Python `repr` of a string: single quotes, escaping
backslashes and single quotes. -/
def pyReprString (s : String) : String :=
  let q := String.singleton '\x27'
  let esc := s.toList.foldl
    (fun acc c =>
      if c == '\\' then acc ++ "\\\\"
      else if c == '\x27' then acc ++ "\\" ++ q
      else acc ++ String.singleton c) ""
  q ++ esc ++ q

/-- Python `repr` of a JSON-shaped value, used by `str`/f-strings on
containers. -/
def pyRepr (v : JVal) : String :=
  match v with
  | .null => "None"
  | .bool true => "True"
  | .bool false => "False"
  | .num n => toString n
  | .str s => pyReprString s
  | .arr l => "[" ++ ", ".intercalate (l.attach.map (fun x => pyRepr x.1)) ++ "]"
  | .obj kvs =>
      "\x7b" ++
      ", ".intercalate (kvs.attach.map (fun x => pyReprString x.1.1 ++ ": " ++ pyRepr x.1.2)) ++
      "\x7d"
decreasing_by
  · have h := List.sizeOf_lt_of_mem x.2
    simp only [JVal.arr.sizeOf_spec]
    omega
  · have h := List.sizeOf_lt_of_mem x.2
    obtain ⟨⟨a, b⟩, hm⟩ := x
    simp only [Prod.mk.sizeOf_spec, JVal.obj.sizeOf_spec] at *
    omega

/-- Python `str()` / f-string formatting of a value. -/
def pyStr (v : JVal) : String :=
  match v with
  | .str s => s
  | _ => pyRepr v

/-- `int()` on a string body (after stripping whitespace): optional sign
followed by at least one ASCII digit. -/
def pyIntOfDigits (cs : List Char) : Option Int :=
  let p :=
    match cs with
    | '-' :: rest => (true, rest)
    | '+' :: rest => (false, rest)
    | _ => (false, cs)
  if p.2.isEmpty || !p.2.all Char.isDigit then none
  else
    let n : Nat := p.2.foldl (fun acc c => acc * 10 + (c.toNat - 48)) 0
    some (if p.1 then -(n : Int) else (n : Int))

/-- Python `int(value)`: numbers pass through, booleans coerce, strings
are parsed, everything else raises. -/
def pyInt (v : JVal) : Except String Int :=
  match v with
  | .num n => .ok n
  | .bool b => .ok (if b then 1 else 0)
  | .str s =>
      match pyIntOfDigits (pyStrip s).toList with
      | some n => .ok n
      | none => .error ("invalid literal for int with base 10: " ++ s)
  | .null => .error "int argument must be a string or a number, not NoneType"
  | _ => .error "int argument must be a string or a number"

/-- UTF-8 encoding of one character. -/
def utf8EncodeChar (c : Char) : List Nat :=
  let n := c.toNat
  if n < 0x80 then [n]
  else if n < 0x800 then [0xC0 + n / 64, 0x80 + n % 64]
  else if n < 0x10000 then [0xE0 + n / 4096, 0x80 + n / 64 % 64, 0x80 + n % 64]
  else [0xF0 + n / 262144, 0x80 + n / 4096 % 64, 0x80 + n / 64 % 64, 0x80 + n % 64]

/-- UTF-8 encoding of a string, as a byte list. -/
def utf8Encode (s : String) : List Nat :=
  (s.toList.map utf8EncodeChar).flatten

/-- Is `b` a UTF-8 continuation byte? -/
def isCont (b : Nat) : Bool := 0x80 ≤ b && b ≤ 0xBF

/-- Strict UTF-8 decoding (`bytes.decode("utf-8")`), rejecting overlong
forms, surrogates and truncated sequences. -/
def utf8DecodeStrictAux : List Nat → Option (List Char)
  | [] => some []
  | b :: rest =>
    if b < 0x80 then
      (utf8DecodeStrictAux rest).map (fun cs => Char.ofNat b :: cs)
    else if 0xC2 ≤ b && b ≤ 0xDF then
      match rest with
      | b2 :: rest2 =>
        if isCont b2 then
          (utf8DecodeStrictAux rest2).map
            (fun cs => Char.ofNat ((b - 0xC0) * 64 + (b2 - 0x80)) :: cs)
        else none
      | [] => none
    else if 0xE0 ≤ b && b ≤ 0xEF then
      match rest with
      | b2 :: b3 :: rest3 =>
        if (if b == 0xE0 then 0xA0 else 0x80) ≤ b2 && b2 ≤ (if b == 0xED then 0x9F else 0xBF)
            && isCont b3 then
          (utf8DecodeStrictAux rest3).map
            (fun cs => Char.ofNat ((b - 0xE0) * 4096 + (b2 - 0x80) * 64 + (b3 - 0x80)) :: cs)
        else none
      | _ => none
    else if 0xF0 ≤ b && b ≤ 0xF4 then
      match rest with
      | b2 :: b3 :: b4 :: rest4 =>
        if (if b == 0xF0 then 0x90 else 0x80) ≤ b2 && b2 ≤ (if b == 0xF4 then 0x8F else 0xBF)
            && isCont b3 && isCont b4 then
          (utf8DecodeStrictAux rest4).map
            (fun cs =>
              Char.ofNat ((b - 0xF0) * 262144 + (b2 - 0x80) * 4096 + (b3 - 0x80) * 64 + (b4 - 0x80))
                :: cs)
        else none
      | _ => none
    else none

/-- Strict UTF-8 decoding to a string. -/
def utf8DecodeStrict (bs : List Nat) : Option String :=
  (utf8DecodeStrictAux bs).map List.asString

/-- UTF-8 decoding with `errors="replace"`: one U+FFFD per rejected lead
byte, resuming right after it. -/
def utf8DecodeReplaceAux (fuel : Nat) (bs : List Nat) : List Char :=
  match fuel, bs with
  | 0, _ => []
  | _, [] => []
  | fuel + 1, b :: rest =>
    if b < 0x80 then Char.ofNat b :: utf8DecodeReplaceAux fuel rest
    else if 0xC2 ≤ b && b ≤ 0xDF then
      match rest with
      | b2 :: rest2 =>
        if isCont b2 then
          Char.ofNat ((b - 0xC0) * 64 + (b2 - 0x80)) :: utf8DecodeReplaceAux fuel rest2
        else Char.ofNat 0xFFFD :: utf8DecodeReplaceAux fuel rest
      | [] => [Char.ofNat 0xFFFD]
    else if 0xE0 ≤ b && b ≤ 0xEF then
      match rest with
      | b2 :: b3 :: rest3 =>
        if (if b == 0xE0 then 0xA0 else 0x80) ≤ b2 && b2 ≤ (if b == 0xED then 0x9F else 0xBF)
            && isCont b3 then
          Char.ofNat ((b - 0xE0) * 4096 + (b2 - 0x80) * 64 + (b3 - 0x80))
            :: utf8DecodeReplaceAux fuel rest3
        else Char.ofNat 0xFFFD :: utf8DecodeReplaceAux fuel rest
      | _ => Char.ofNat 0xFFFD :: utf8DecodeReplaceAux fuel rest
    else if 0xF0 ≤ b && b ≤ 0xF4 then
      match rest with
      | b2 :: b3 :: b4 :: rest4 =>
        if (if b == 0xF0 then 0x90 else 0x80) ≤ b2 && b2 ≤ (if b == 0xF4 then 0x8F else 0xBF)
            && isCont b3 && isCont b4 then
          Char.ofNat ((b - 0xF0) * 262144 + (b2 - 0x80) * 4096 + (b3 - 0x80) * 64 + (b4 - 0x80))
            :: utf8DecodeReplaceAux fuel rest4
        else Char.ofNat 0xFFFD :: utf8DecodeReplaceAux fuel rest
      | _ => Char.ofNat 0xFFFD :: utf8DecodeReplaceAux fuel rest
    else Char.ofNat 0xFFFD :: utf8DecodeReplaceAux fuel rest

/-- UTF-8 decoding with replacement, as a string. -/
def utf8DecodeReplace (bs : List Nat) : String :=
  (utf8DecodeReplaceAux bs.length bs).asString

/-- Sextet value of a standard-alphabet base64 character. -/
def b64Val (c : Char) : Option Nat :=
  if 'A' ≤ c && c ≤ 'Z' then some (c.toNat - 65)
  else if 'a' ≤ c && c ≤ 'z' then some (c.toNat - 97 + 26)
  else if '0' ≤ c && c ≤ '9' then some (c.toNat - 48 + 52)
  else if c == '+' then some 62
  else if c == '/' then some 63
  else none

/-- Flush a partial quad of 2 or 3 sextets into bytes (used when padding
terminates the stream). -/
def b64Flush (pending : List Nat) : List Nat :=
  match pending with
  | [s0, s1] => [s0 * 4 + s1 / 16]
  | [s0, s1, s2] => [s0 * 4 + s1 / 16, s1 % 16 * 16 + s2 / 4]
  | _ => []

/-- `binascii.a2b_base64` in lax mode (CPython 3.11): invalid characters
are skipped without resetting the pad count, a data character resets it,
and a pad that brings the pending quad plus pads to four with at least
two data characters pending terminates decoding successfully.  Leftover
data at end of input is a padding error. -/
def b64Aux (cs : List Char) (pending : List Nat) (pads : Nat) : Option (List Nat) :=
  match cs with
  | [] => if pending.isEmpty then some [] else none
  | c :: rest =>
    if c == '=' then
      if pending.length ≥ 2 && pending.length + (pads + 1) ≥ 4 then
        some (b64Flush pending)
      else b64Aux rest pending (pads + 1)
    else
      match b64Val c with
      | some v =>
        match pending ++ [v] with
        | [s0, s1, s2, s3] =>
          (b64Aux rest [] 0).map
            (fun bs => (s0 * 4 + s1 / 16) :: (s1 % 16 * 16 + s2 / 4) :: (s2 % 4 * 64 + s3) :: bs)
        | p => b64Aux rest p 0
      | none => b64Aux rest pending pads

/-- `base64.b64decode` applied to a `str`: the string must be pure ASCII
(Python first encodes it as ASCII), then the lax binascii decoder runs. -/
def pyB64DecodeStr (s : String) : Option (List Nat) :=
  if s.toList.all (fun c => c.toNat < 128) then b64Aux s.toList [] 0 else none

/-- `str.replace(old, new)` on character lists with step fuel: scan left
to right, replacing non-overlapping occurrences.  An empty `old` inserts
`new` at every boundary, as in Python.  (`fuel = s.length + 1` never runs
out: each step consumes at least one character.) -/
def pyReplaceL (fuel : Nat) (old new : List Char) (s : List Char) : List Char :=
  match fuel with
  | 0 => s
  | fuel + 1 =>
    match s with
    | [] => if old.isEmpty then new else []
    | c :: rest =>
      if old ≠ [] ∧ old.isPrefixOf (c :: rest) then
        new ++ pyReplaceL fuel old new ((c :: rest).drop old.length)
      else if old.isEmpty then
        new ++ c :: pyReplaceL fuel old new rest
      else
        c :: pyReplaceL fuel old new rest

/-- `str.replace(old, new)`. -/
def pyReplace (s old new : String) : String :=
  (pyReplaceL (s.length + 1) old.toList new.toList s.toList).asString

/-- JSON whitespace skipping (`json.loads` accepts space, tab, newline,
carriage return between tokens). -/
def jSkipWs (cs : List Char) : List Char :=
  cs.dropWhile (fun c => c == ' ' || c == '\t' || c == '\n' || c == '\r')

/-- Hex digit value. -/
def hexVal (c : Char) : Option Nat :=
  if '0' ≤ c && c ≤ '9' then some (c.toNat - 48)
  else if 'a' ≤ c && c ≤ 'f' then some (c.toNat - 97 + 10)
  else if 'A' ≤ c && c ≤ 'F' then some (c.toNat - 65 + 10)
  else none

/-- Four hex digits, for `\uXXXX` escapes. -/
def jParseHex4 (cs : List Char) : Option (Nat × List Char) :=
  match cs with
  | a :: b :: c :: d :: rest =>
    match hexVal a, hexVal b, hexVal c, hexVal d with
    | some x, some y, some z, some w => some (x * 4096 + y * 256 + z * 16 + w, rest)
    | _, _, _, _ => none
  | _ => none

/-- JSON string body after the opening quote.  Control characters must be
escaped; `\uXXXX` surrogate pairs are combined (lone surrogates, which
Python tolerates, are outside the model since Lean characters are
scalars). -/
def jParseStringBody (fuel : Nat) (cs : List Char) : Option (List Char × List Char) :=
  match fuel with
  | 0 => none
  | fuel + 1 =>
    match cs with
    | [] => none
    | '"' :: rest => some ([], rest)
    | '\\' :: e :: rest =>
      let simple : Option Char :=
        if e == '"' then some '"'
        else if e == '\\' then some '\\'
        else if e == '/' then some '/'
        else if e == 'b' then some (Char.ofNat 8)
        else if e == 'f' then some (Char.ofNat 12)
        else if e == 'n' then some '\n'
        else if e == 'r' then some '\r'
        else if e == 't' then some '\t'
        else none
      (match simple with
       | some c => (jParseStringBody fuel rest).map (fun p => (c :: p.1, p.2))
       | none =>
         if e == 'u' then
           match jParseHex4 rest with
           | none => none
           | some (n, rest2) =>
             if 0xD800 ≤ n && n ≤ 0xDBFF then
               match rest2 with
               | '\\' :: 'u' :: rest3 =>
                 match jParseHex4 rest3 with
                 | some (m, rest4) =>
                   if 0xDC00 ≤ m && m ≤ 0xDFFF then
                     (jParseStringBody fuel rest4).map
                       (fun p => (Char.ofNat (0x10000 + (n - 0xD800) * 1024 + (m - 0xDC00)) :: p.1, p.2))
                   else none
                 | none => none
               | _ => none
             else if 0xDC00 ≤ n && n ≤ 0xDFFF then none
             else (jParseStringBody fuel rest2).map (fun p => (Char.ofNat n :: p.1, p.2))
         else none)
    | c :: rest =>
      if c.toNat < 0x20 then none
      else (jParseStringBody fuel rest).map (fun p => (c :: p.1, p.2))

/-- JSON integer literal: optional minus, `0` or a nonzero-led digit run.
A following `.`, `e` or `E` (a float literal) is outside the model and
rejected. -/
def jParseNumber (cs : List Char) : Option (Int × List Char) :=
  let p :=
    match cs with
    | '-' :: rest => (true, rest)
    | _ => (false, cs)
  match p.2 with
  | [] => none
  | d :: _ =>
    if !d.isDigit then none
    else
      let digits :=
        if d == '0' then ([d], p.2.drop 1)
        else p.2.span Char.isDigit
      match digits.2 with
      | '.' :: _ => none
      | 'e' :: _ => none
      | 'E' :: _ => none
      | rest =>
        let n : Nat := digits.1.foldl (fun acc c => acc * 10 + (c.toNat - 48)) 0
        some (if p.1 then -(n : Int) else (n : Int), rest)

mutual

/-- JSON value parser (`json.loads` grammar, fuelled recursive descent). -/
def jParseVal (fuel : Nat) (cs : List Char) : Option (JVal × List Char) :=
  match fuel with
  | 0 => none
  | fuel + 1 =>
    match jSkipWs cs with
    | '"' :: rest => (jParseStringBody fuel rest).map (fun p => (.str p.1.asString, p.2))
    | '[' :: rest =>
      (match jSkipWs rest with
       | ']' :: rest2 => some (.arr [], rest2)
       | _ => (jParseArrItems fuel rest).map (fun p => (.arr p.1, p.2)))
    | '\x7b' :: rest =>
      (match jSkipWs rest with
       | '\x7d' :: rest2 => some (.obj [], rest2)
       | _ => (jParseObjItems fuel rest []).map (fun p => (.obj p.1, p.2)))
    | 't' :: 'r' :: 'u' :: 'e' :: rest => some (.bool true, rest)
    | 'f' :: 'a' :: 'l' :: 's' :: 'e' :: rest => some (.bool false, rest)
    | 'n' :: 'u' :: 'l' :: 'l' :: rest => some (.null, rest)
    | cs2 => (jParseNumber cs2).map (fun p => (.num p.1, p.2))

/-- Comma-separated JSON array items up to `]`. -/
def jParseArrItems (fuel : Nat) (cs : List Char) : Option (List JVal × List Char) :=
  match fuel with
  | 0 => none
  | fuel + 1 =>
    match jParseVal fuel cs with
    | none => none
    | some (v, rest) =>
      match jSkipWs rest with
      | ',' :: rest2 => (jParseArrItems fuel rest2).map (fun p => (v :: p.1, p.2))
      | ']' :: rest2 => some ([v], rest2)
      | _ => none

/-- Comma-separated JSON object entries up to the closing brace.
Duplicate keys behave like Python dict assignment: first position, last
value. -/
def jParseObjItems (fuel : Nat) (cs : List Char) (acc : List (String × JVal)) :
    Option (List (String × JVal) × List Char) :=
  match fuel with
  | 0 => none
  | fuel + 1 =>
    match jSkipWs cs with
    | '"' :: rest =>
      match jParseStringBody fuel rest with
      | none => none
      | some (key, rest2) =>
        match jSkipWs rest2 with
        | ':' :: rest3 =>
          match jParseVal fuel rest3 with
          | none => none
          | some (v, rest4) =>
            let acc2 := kvSet acc key.asString v
            (match jSkipWs rest4 with
             | ',' :: rest5 => jParseObjItems fuel rest5 acc2
             | '\x7d' :: rest5 => some (acc2, rest5)
             | _ => none)
        | _ => none
    | _ => none

end

/-- `json.loads`: parse one value and require only whitespace after it. -/
def jsonParse (s : String) : Option JVal :=
  match jParseVal (s.length + 1) s.toList with
  | some (v, rest) => if (jSkipWs rest).isEmpty then some v else none
  | none => none

/-- Split a character list at the first occurrence of `sep`; `none` when
`sep` does not occur. -/
def splitFirstL (sep : Char) : List Char → Option (List Char × List Char)
  | [] => none
  | c :: rest =>
    if c == sep then some ([], rest)
    else (splitFirstL sep rest).map (fun p => (c :: p.1, p.2))

/-- `s.split(sep, 1)` destructured into exactly two parts; `none` models
the `ValueError` of unpacking a sepless split into two names. -/
def splitFirst (s : String) (sep : Char) : Option (String × String) :=
  (splitFirstL sep s.toList).map (fun p => (p.1.asString, p.2.asString))

/-- Maximal run of `%XX` escapes, as raw bytes plus the remainder. -/
def percentRun : List Char → (List Nat × List Char)
  | '%' :: h1 :: h2 :: rest =>
    match hexVal h1, hexVal h2 with
    | some x, some y =>
      let p := percentRun rest
      ((x * 16 + y) :: p.1, p.2)
    | _, _ => ([], '%' :: h1 :: h2 :: rest)
  | cs => ([], cs)

/-- `urllib.parse.unquote` with the default `errors="replace"`: maximal
`%XX` runs are decoded as UTF-8 with replacement, everything else passes
through (an invalid escape stays literal). -/
def unquoteAux (fuel : Nat) (cs : List Char) : String :=
  match fuel with
  | 0 => cs.asString
  | fuel + 1 =>
    match cs with
    | [] => ""
    | '%' :: rest =>
      match percentRun ('%' :: rest) with
      | ([], _) => "%" ++ unquoteAux fuel rest
      | (bs, r) => utf8DecodeReplace bs ++ unquoteAux fuel r
    | c :: rest => String.singleton c ++ unquoteAux fuel rest

/-- `urllib.parse.unquote`. -/
def unquote (s : String) : String :=
  unquoteAux s.length s.toList

/-- `unquote` after mapping `+` to space, as `parse_qsl` does to each
field. -/
def unquotePlus (s : String) : String :=
  unquote ((s.toList.map (fun c => if c == '+' then ' ' else c)).asString)

/-- `urllib.parse.parse_qsl` with default flags: split on `&`, drop
fields without `=` and fields with an empty value, split at the first
`=`, percent-plus-decode names and values. -/
def parse_qsl (qs : String) : List (String × String) :=
  (splitOnChar '&' qs).filterMap (fun field =>
    if field == "" then none
    else
      match splitFirst field '=' with
      | none => none
      | some (n, v) => if v == "" then none else some (unquotePlus n, unquotePlus v))

/-- `dict(parse_qsl(...)).get(k)`: last occurrence wins. -/
def qslGet (ps : List (String × String)) (k : String) : Option String :=
  (ps.reverse.find? (fun p => p.1 == k)).map (fun p => p.2)

/-- `dict(...).get(k, d)`. -/
def qslGetD (ps : List (String × String)) (k d : String) : String :=
  (qslGet ps k).getD d

/-- The lazy `(.+?)(?:#(.+))?$` part of the URL regexes: the query is the
shortest nonempty prefix whose remainder is empty or `#` followed by a
nonempty fragment. -/
def lazyQF (seen : List Char) : List Char → List Char × Option (List Char)
  | [] => (seen, none)
  | c :: rest =>
    if seen ≠ [] && c == '#' && rest ≠ [] then (seen, some rest)
    else lazyQF (seen ++ [c]) rest

/-- Tail of the trojan/ss regexes after the port digits:
`(?:\?(.+?))?(?:#(.+))?$`. -/
def urlTailOpt : List Char → Option (Option (List Char) × Option (List Char))
  | [] => some (none, none)
  | '?' :: q =>
    if q.isEmpty then none
    else
      let p := lazyQF [] q
      some (some p.1, p.2)
  | '#' :: f => if f.isEmpty then none else some (none, some f)
  | _ => none

/-- Tail of the vless regex after the port digits: `\?(.+?)(?:#(.+))?$`
(the query is mandatory). -/
def urlTailReq : List Char → Option (Option (List Char) × Option (List Char))
  | '?' :: q =>
    if q.isEmpty then none
    else
      let p := lazyQF [] q
      some (some p.1, p.2)
  | _ => none

/-- Common shape of the three URL regexes
`^<scheme>([^@]+)@([^:]+):(\d+)<tail>`: the userinfo runs to the first
`@`, the host to the first `:` after it, the port is a maximal nonempty
digit run, and the remainder is handled by `tail`.  (`\d` is modelled as
ASCII digits; Python also accepts other Unicode decimal digits.) -/
def schemeMatch (scheme : String)
    (tail : List Char → Option (Option (List Char) × Option (List Char)))
    (url : String) : Option (String × String × String × Option String × Option String) :=
  let cs := url.toList
  if scheme.toList.isPrefixOf cs then
    match splitFirstL '@' (cs.drop scheme.length) with
    | none => none
    | some (user, afterAt) =>
      if user.isEmpty then none
      else
        match splitFirstL ':' afterAt with
        | none => none
        | some (host, afterColon) =>
          if host.isEmpty then none
          else
            let pr := afterColon.span Char.isDigit
            if pr.1.isEmpty then none
            else
              (tail pr.2).map (fun qf =>
                (user.asString, host.asString, pr.1.asString,
                 qf.1.map List.asString, qf.2.map List.asString))
  else none

/-- The trojan URL regex of `add_trojan_to_template`. -/
def trojanMatch (url : String) : Option (String × String × String × Option String × Option String) :=
  schemeMatch "trojan://" urlTailOpt url

/-- The shadowsocks URL regex of `add_shadowsocks_to_template`. -/
def ssMatch (url : String) : Option (String × String × String × Option String × Option String) :=
  schemeMatch "ss://" urlTailOpt url

/-- The vless URL regex of `add_vless_to_template` (query mandatory). -/
def vlessMatch (url : String) : Option (String × String × String × Option String × Option String) :=
  schemeMatch "vless://" urlTailReq url

/-- `re.sub(r"[^\x00-\x7F]+", "", s)`: drop all non-ASCII characters. -/
def stripNonAscii (s : String) : String :=
  (s.toList.filter (fun c => c.toNat ≤ 0x7F)).asString

/-- `get_vmess_transport_config` (main.py lines 391-423). -/
def get_vmess_transport_config (vmess_config : JVal) : JVal :=
  let network := jGetD vmess_config "net" (.str "tcp")
  if pyEqStr "ws" network then
    .obj [("type", .str "ws"), ("path", jGetD vmess_config "path" (.str "/")),
          ("headers", .obj [("Host", jGetD vmess_config "host" (.str ""))])]
  else if pyEqStr "grpc" network then
    .obj [("type", .str "grpc"), ("service_name", jGetD vmess_config "path" (.str ""))]
  else if pyEqStr "http" network then
    .obj [("type", .str "http"),
          ("host", if pyTruthy (jGetD vmess_config "host" .null) then
              .arr [jGetD vmess_config "host" .null] else .arr []),
          ("path", jGetD vmess_config "path" (.str "/"))]
  else if pyEqStr "tcp" network then
    if pyEqStr "http" (jGetD vmess_config "type" .null) then
      .obj [("type", .str "http"),
            ("host", if pyTruthy (jGetD vmess_config "host" .null) then
                .arr [jGetD vmess_config "host" .null] else .arr []),
            ("path", jGetD vmess_config "path" (.str "/"))]
    else .obj [("type", .str "tcp")]
  else .obj [("type", .str "tcp")]

/-- `get_vless_transport_config` (main.py lines 425-447). -/
def get_vless_transport_config (type_param host path : String)
    (params : List (String × String)) : JVal :=
  if type_param == "ws" then
    .obj [("type", .str "ws"), ("path", .str path), ("headers", .obj [("Host", .str host)])]
  else if type_param == "grpc" then
    .obj [("type", .str "grpc"), ("service_name", .str path)]
  else if type_param == "http" then
    .obj [("type", .str "http"),
          ("host", if host != "" then .arr [.str host] else .arr []),
          ("path", .str (if path != "" then path else "/"))]
  else .obj [("type", .str "tcp")]

/-- `get_trojan_transport_config` (main.py lines 449-471), textually the
same switch as the vless one. -/
def get_trojan_transport_config (type_param host path : String)
    (params : List (String × String)) : JVal :=
  if type_param == "ws" then
    .obj [("type", .str "ws"), ("path", .str path), ("headers", .obj [("Host", .str host)])]
  else if type_param == "grpc" then
    .obj [("type", .str "grpc"), ("service_name", .str path)]
  else if type_param == "http" then
    .obj [("type", .str "http"),
          ("host", if host != "" then .arr [.str host] else .arr []),
          ("path", .str (if path != "" then path else "/"))]
  else .obj [("type", .str "tcp")]

/-- Lookup in the parsed plugin-options dictionary. -/
def optsGet (d : List (String × JVal)) (k : String) : Option JVal :=
  (d.find? (fun kv => kv.1 == k)).map (fun kv => kv.2)

/-- `create_ss_v2ray_outbound` (main.py lines 315-361): the options string
is parsed and the TLS/websocket flags are computed, but both branches
return the same dictionary with the raw `plugin_opts`. -/
def create_ss_v2ray_outbound (server port method password plugin_opts tag : String)
    (params : List (String × String)) : Except String JVal :=
  let opts_dict : List (String × JVal) :=
    (splitOnChar ';' plugin_opts).foldl (fun acc opt =>
      if opt == "" then acc
      else
        match splitFirst opt '=' with
        | some (k, v) => kvSet acc k (.str v)
        | none => kvSet acc opt (.bool true)) []
  let _tls_enabled := (optsGet opts_dict "tls").isSome
  let ws_mode := pyEqStr "websocket" ((optsGet opts_dict "mode").getD .null)
  match pyInt (.str port) with
  | .error e => .error e
  | .ok p =>
    if ws_mode then
      let _ws_path := (optsGet opts_dict "path").getD (.str "/")
      let _ws_host := (optsGet opts_dict "host").getD (.str "")
      .ok (.obj [("type", .str "shadowsocks"), ("tag", .str tag), ("server", .str server),
        ("server_port", .num p), ("method", .str method), ("password", .str password),
        ("plugin", .str "v2ray-plugin"), ("plugin_opts", .str plugin_opts)])
    else
      .ok (.obj [("type", .str "shadowsocks"), ("tag", .str tag), ("server", .str server),
        ("server_port", .num p), ("method", .str method), ("password", .str password),
        ("plugin", .str "v2ray-plugin"), ("plugin_opts", .str plugin_opts)])

/-- Outbound construction of `add_vmess_to_template` from the decoded
payload (main.py lines 104-126).  Only `int(port)` / `int(aid)` can
raise once the payload is a JSON object. -/
def vmessFromConfig (vmess_config : JVal) : Except String (JVal × String) :=
  match vmess_config with
  | .obj _ =>
    let original_tag := jGetD vmess_config "ps" (.str "vmess-outbound")
    let tag := "VMess - " ++ pyStr original_tag
    match pyInt (jGetD vmess_config "port" .null) with
    | .error e => .error e
    | .ok port =>
      match pyInt (jGetD vmess_config "aid" (.num 0)) with
      | .error e => .error e
      | .ok aid =>
        .ok (.obj [
          ("type", .str "vmess"),
          ("tag", .str tag),
          ("server", jGetD vmess_config "add" .null),
          ("server_port", .num port),
          ("uuid", jGetD vmess_config "id" .null),
          ("security", jGetD vmess_config "scy" (.str "auto")),
          ("alter_id", .num aid),
          ("tls", .obj [
            ("enabled", .bool (pyEqStr "tls" (jGetD vmess_config "tls" .null))),
            ("server_name",
              if pyTruthy (jGetD vmess_config "sni" .null) then jGetD vmess_config "sni" .null
              else jGetD vmess_config "host" (.str "")),
            ("insecure", .bool (match jLookup vmess_config "verify_cert" with
              | some (.bool false) => true
              | _ => false))]),
          ("transport", get_vmess_transport_config vmess_config)], tag)
  | _ => .error "object has no attribute get"

/-- The `base64_content` of `add_vmess_to_template` line 100:
`vmess_url.replace("vmess://", "")` — a replace-all, not a prefix
strip. -/
def vmess_base64_content (vmess_url : String) : String :=
  pyReplace vmess_url "vmess://" ""

/-- Decode-and-build part of `add_vmess_to_template` (main.py
lines 96-126): strip scheme by replace-all, lax base64 decode, strict
UTF-8 decode, `json.loads`, then the outbound construction. -/
def add_vmess_build (vmess_url : String) : Except String (JVal × String) :=
  match pyB64DecodeStr (vmess_base64_content vmess_url) with
  | none => .error "Invalid base64-encoded string"
  | some bytes =>
    match utf8DecodeStrict bytes with
    | none => .error "utf-8 codec cannot decode"
    | some decoded_content =>
      match jsonParse decoded_content with
      | none => .error "Expecting value"
      | some vmess_config => vmessFromConfig vmess_config

/-- Decode-and-build part of `add_vless_to_template` (main.py
lines 137-182). -/
def add_vless_build (vless_url : String) : Except String (JVal × String) :=
  match vlessMatch vless_url with
  | none => .error "Invalid VLESS URL format"
  | some (uuid, server, port, params_string, fragment) =>
    let params := parse_qsl (params_string.getD "")
    let type_param := qslGetD params "type" "tcp"
    let security := qslGetD params "security" "none"
    let sni := qslGetD params "sni" ""
    let fp := qslGetD params "fp" ""
    let alpn := qslGetD params "alpn" ""
    let path := qslGetD params "path" ""
    let host := qslGetD params "host" ""
    let original_tag :=
      match fragment with
      | some f => unquote f
      | none => qslGetD params "name" ("vless-" ++ server ++ "-" ++ port)
    let tag := "VLess - " ++ original_tag
    match pyInt (.str port) with
    | .error e => .error e
    | .ok p =>
      .ok (.obj [
        ("type", .str "vless"),
        ("tag", .str tag),
        ("server", .str server),
        ("server_port", .num p),
        ("uuid", .str uuid),
        ("flow", .str (qslGetD params "flow" "")),
        ("tls", .obj [
          ("enabled", .bool (security == "tls" || security == "xtls")),
          ("server_name", .str sni),
          ("utls", .obj [("enabled", .bool (fp != "")), ("fingerprint", .str fp)]),
          ("alpn", if alpn != "" then .arr ((splitOnChar ',' alpn).map JVal.str) else .arr [])]),
        ("transport", get_vless_transport_config type_param host path params)], tag)

/-- Decode-and-build part of `add_trojan_to_template` (main.py
lines 193-234): the `transport` key is attached only when
`type != "tcp"`. -/
def add_trojan_build (trojan_url : String) : Except String (JVal × String) :=
  match trojanMatch trojan_url with
  | none => .error "Invalid Trojan URL format"
  | some (password, server, port, params_string, fragment) =>
    let params := parse_qsl (params_string.getD "")
    let sni := qslGetD params "sni" ""
    let alpn := qslGetD params "alpn" ""
    let type_param := qslGetD params "type" "tcp"
    let host := qslGetD params "host" ""
    let path := qslGetD params "path" ""
    let original_tag :=
      match fragment with
      | some f => unquote f
      | none => qslGetD params "name" ("trojan-" ++ server ++ "-" ++ port)
    let tag := "Trojan - " ++ original_tag
    match pyInt (.str port) with
    | .error e => .error e
    | .ok p =>
      let outbound := JVal.obj [
        ("type", .str "trojan"),
        ("tag", .str tag),
        ("server", .str server),
        ("server_port", .num p),
        ("password", .str password),
        ("tls", .obj [
          ("enabled", .bool true),
          ("server_name", .str sni),
          ("alpn", if alpn != "" then .arr ((splitOnChar ',' alpn).map JVal.str) else .arr [])])]
      if type_param != "tcp" then
        .ok (objSet outbound "transport" (get_trojan_transport_config type_param host path params),
             tag)
      else .ok (outbound, tag)

/-- The inner decode chain of `add_shadowsocks_to_template` (main.py
lines 254-258): URL-decode the userinfo, lax base64 decode, strict UTF-8
decode, split at the first `:`.  `none` models the exception caught by
the inner `try` (line 259). -/
def ssDecodeChain (base64_part : String) : Option (String × String) := do
  let bytes ← pyB64DecodeStr (unquote base64_part)
  let decoded ← utf8DecodeStrict bytes
  splitFirst decoded ':'

/-- Plugin-name/plugin-options split of `add_shadowsocks_to_template`
(main.py lines 274-281): split the URL-decoded `plugin` parameter at the
first `;` when present. -/
def ssPluginSplit (plugin_raw : String) : String × String :=
  if plugin_raw != "" then
    match splitFirst plugin_raw ';' with
    | some (pl, po) => (pl, po)
    | none => (plugin_raw, "")
  else ("", "")

/-- Decode-and-build part of `add_shadowsocks_to_template` (main.py
lines 245-297). -/
def add_shadowsocks_build (ss_url : String) : Except String (JVal × String) :=
  match ssMatch ss_url with
  | none => .error "Invalid Shadowsocks URL format"
  | some (base64_part, server, port, params_str, fragment) =>
    match ssDecodeChain base64_part with
    | none => .error "Invalid base64 encoding in Shadowsocks URL"
    | some (method0, password) =>
      let params := parse_qsl (params_str.getD "")
      let method := qslGetD params "encryption" method0
      let original_tag0 :=
        match fragment with
        | some f => unquote f
        | none => "ss-" ++ server ++ "-" ++ port
      let original_tag := pyStrip (stripNonAscii original_tag0)
      let tag := "Shadowsocks - " ++ original_tag
      let plugin_raw := unquote (qslGetD params "plugin" "")
      let pp := ssPluginSplit plugin_raw
      if pp.1 == "v2ray-plugin" then
        (create_ss_v2ray_outbound server port method password pp.2 tag params).map
          (fun ob => (ob, tag))
      else
        match pyInt (.str port) with
        | .error e => .error e
        | .ok p =>
          let outbound := JVal.obj [("type", .str "shadowsocks"), ("tag", .str tag),
            ("server", .str server), ("server_port", .num p), ("method", .str method),
            ("password", .str password)]
          if pp.1 != "" then
            .ok (objSet (objSet outbound "plugin" (.str pp.1)) "plugin_opts" (.str pp.2), tag)
          else .ok (outbound, tag)

/-- One iteration of the loop in `add_outbound_to_selectors` (main.py
lines 91-94): read `ob["tag"]`, test it against the allow-list, and if
the entry has an `outbounds` member that does not already contain the
tag, append it. -/
def selUpdateOne (tag : String) (ob : JVal) : Except String JVal :=
  match ob with
  | .obj _ =>
    match jLookup ob "tag" with
    | none => .error "KeyError: tag"
    | some tv =>
      if pyEqStr "Latency" tv || pyEqStr "Manual" tv then
        match jLookup ob "outbounds" with
        | none => .ok ob
        | some lst =>
          match pyIn tag lst with
          | .error e => .error e
          | .ok true => .ok ob
          | .ok false =>
            match lst with
            | .arr l => .ok (objSet ob "outbounds" (.arr (l ++ [.str tag])))
            | _ => .error "object has no attribute append"
      else .ok ob
  | _ => .error "value is not subscriptable"

/-- Pure description of a successful `selUpdateOne` step, used in
statements. -/
def selUpd (tag : String) (ob : JVal) : JVal :=
  match ob with
  | .obj _ =>
    match jLookup ob "tag" with
    | none => ob
    | some tv =>
      if pyEqStr "Latency" tv || pyEqStr "Manual" tv then
        match jLookup ob "outbounds" with
        | some (.arr l) =>
          if l.any (pyEqStr tag) then ob else objSet ob "outbounds" (.arr (l ++ [.str tag]))
        | _ => ob
      else ob
  | _ => ob

/-- The `for ob in template["outbounds"]` loop of
`add_outbound_to_selectors`: entries processed in order; a raised
exception stops the loop, keeping the updates already made. -/
def selLoop (tag : String) : List JVal → List JVal × Option String
  | [] => ([], none)
  | g :: gs =>
    match selUpdateOne tag g with
    | .error e => (g :: gs, some e)
    | .ok g2 =>
      let r := selLoop tag gs
      (g2 :: r.1, r.2)

/-- `add_outbound_to_selectors` (main.py lines 89-94), returning the
template after the call and the raised error, if any. -/
def add_outbound_to_selectors (template : JVal) (tag : String) : JVal × Option String :=
  match jLookup template "outbounds" with
  | some (.arr obs) =>
    let r := selLoop tag obs
    (objSet template "outbounds" (.arr r.1), r.2)
  | some _ => (template, some "items are not subscriptable")
  | none => (template, some "KeyError: outbounds")

/-- The common tail of all four handlers:
`template["outbounds"].append(outbound)` followed by
`add_outbound_to_selectors(template, tag)`. -/
def attachOutbound (template : JVal) (ob : JVal) (tag : String) : JVal × Option String :=
  match jLookup template "outbounds" with
  | some (.arr obs) =>
    add_outbound_to_selectors (objSet template "outbounds" (.arr (obs ++ [ob]))) tag
  | some _ => (template, some "object has no attribute append")
  | none => (template, some "KeyError: outbounds")

/-- Common shape of the four `add_*_to_template` handlers: build the
outbound from the link, then append it and register its tag, wrapping
any raised error in the handler-specific message prefix. -/
def handlerOf (build : String → Except String (JVal × String)) (wrap : String)
    (template : JVal) (url : String) : JVal × Option String :=
  match build url with
  | .error e => (template, some (wrap ++ e))
  | .ok (ob, tag) =>
    let r := attachOutbound template ob tag
    (r.1, r.2.map (fun e => wrap ++ e))

/-- `add_vmess_to_template` (main.py lines 96-135): template after the
call plus the raised `ValueError`, if any. -/
def add_vmess_to_template (template : JVal) (vmess_url : String) : JVal × Option String :=
  handlerOf add_vmess_build "Invalid VMess configuration format: " template vmess_url

/-- `add_vless_to_template` (main.py lines 137-191). -/
def add_vless_to_template (template : JVal) (vless_url : String) : JVal × Option String :=
  handlerOf add_vless_build "Invalid VLESS configuration format: " template vless_url

/-- `add_trojan_to_template` (main.py lines 193-243). -/
def add_trojan_to_template (template : JVal) (trojan_url : String) : JVal × Option String :=
  handlerOf add_trojan_build "Invalid Trojan configuration format: " template trojan_url

/-- `add_shadowsocks_to_template` (main.py lines 245-304). -/
def add_shadowsocks_to_template (template : JVal) (ss_url : String) : JVal × Option String :=
  handlerOf add_shadowsocks_build "Invalid Shadowsocks configuration format: " template ss_url

/-- Does the line carry one of the four recognized scheme prefixes? -/
def knownScheme (config : String) : Bool :=
  strStartsWith config "vmess://" || strStartsWith config "vless://" ||
  strStartsWith config "trojan://" || strStartsWith config "ss://"

/-- One iteration of the dispatch loop in `convert` (main.py
lines 54-71): route by prefix, skip unknown prefixes, and on an
exception keep the (possibly partially mutated) template and continue. -/
def runLine (template : JVal) (config : String) : JVal × Option String :=
  if strStartsWith config "vmess://" then add_vmess_to_template template config
  else if strStartsWith config "vless://" then add_vless_to_template template config
  else if strStartsWith config "trojan://" then add_trojan_to_template template config
  else if strStartsWith config "ss://" then add_shadowsocks_to_template template config
  else (template, none)

/-- The whole dispatch loop of `convert`: line errors are swallowed, the
template state carries over. -/
def convertLines (template : JVal) (ls : List String) : JVal :=
  ls.foldl (fun t l => (runLine t l).1) template

/-- Line splitting of `convert` (main.py line 36): split on newlines,
strip, drop blanks. -/
def configLinesOf (input_text : String) : List String :=
  ((splitOnChar '\n' input_text).map pyStrip).filter (fun l => l != "")

/-- `json.loads(json.dumps(v))` used at main.py line 51 to copy the
template: on JSON-representable values this round-trip is the
identity. -/
def deepCopy (v : JVal) : JVal := v

/-- Modelled from the spec: the static `templates/singbox_template.json`
file is not part of src/, so the template skeleton is taken from the
spec (sections 3 and 6): an `outbounds` array with plain outbounds and
the `Latency`/`Manual` group entries holding `outbounds` reference
lists. -/
def SINGBOX_TEMPLATE : JVal :=
  .obj [
    ("log", .obj [("level", .str "info")]),
    ("outbounds", .arr [
      .obj [("type", .str "direct"), ("tag", .str "direct")],
      .obj [("type", .str "urltest"), ("tag", .str "Latency"), ("outbounds", .arr [])],
      .obj [("type", .str "selector"), ("tag", .str "Manual"), ("outbounds", .arr [])]])]

/-- The document-producing part of `convert` (main.py lines 30-74):
empty input yields no document, otherwise the loop runs on a deep copy
of the loaded template. -/
def convertDoc (template : JVal) (input_text : String) : Option JVal :=
  let config_lines := configLinesOf input_text
  if config_lines.isEmpty then none
  else some (convertLines (deepCopy template) config_lines)

/-- A template entry over which the selector loop cannot raise: a
dictionary with a `tag` key whose `outbounds` member, when the tag is in
the allow-list and the member exists, is a list. -/
def groupOK (ob : JVal) : Bool :=
  match ob with
  | .obj _ =>
    match jLookup ob "tag" with
    | some tv =>
      if pyEqStr "Latency" tv || pyEqStr "Manual" tv then
        match jLookup ob "outbounds" with
        | some (.arr _) => true
        | some _ => false
        | none => true
      else true
    | none => false
  | _ => false

/-- Well-formed template: an `outbounds` array whose entries are all
`groupOK` (true of the sing-box template and preserved by the
handlers). -/
def wfTemplate (template : JVal) : Bool :=
  match jLookup template "outbounds" with
  | some (.arr obs) => obs.all groupOK
  | _ => false

/-- Shape of every outbound built by the handlers: a dictionary with a
string `tag` and no `outbounds` member. -/
def obOK (ob : JVal) (tag : String) : Bool :=
  match ob with
  | .obj _ =>
    (match jLookup ob "tag" with
     | some (.str t) => t == tag
     | _ => false) &&
    (jLookup ob "outbounds").isNone
  | _ => false

/-- The `outbounds` array of a template. -/
def outboundsOf (template : JVal) : Option (List JVal) :=
  match jLookup template "outbounds" with
  | some (.arr l) => some l
  | _ => none

/-- The most recently appended outbound. -/
def lastOutboundOf (template : JVal) : Option JVal :=
  (outboundsOf template).bind List.getLast?

/-- Exact failure condition of the vmess handler on a well-formed
template: the decode chain (ASCII check + lax base64, strict UTF-8,
`json.loads`) fails, the payload is not a JSON object, or `int()` fails
on `port` (or on `aid` when present). -/
def vmessDecodeFails (url : String) : Bool :=
  match pyB64DecodeStr (vmess_base64_content url) with
  | none => true
  | some bytes =>
    match utf8DecodeStrict bytes with
    | none => true
    | some s =>
      match jsonParse s with
      | none => true
      | some cfg =>
        match cfg with
        | .obj _ =>
          (match pyInt (jGetD cfg "port" .null) with
           | .error _ => true
           | .ok _ =>
             match pyInt (jGetD cfg "aid" (.num 0)) with
             | .error _ => true
             | .ok _ => false)
        | _ => true

theorem find?_kvSet_self (kvs : List (String × JVal)) (k : String) (val : JVal) :
    (kvSet kvs k val).find? (fun kv => kv.1 == k) = some (k, val) := by
  induction kvs with
  | nil => simp [kvSet, List.find?]
  | cons kv rest ih =>
    simp only [kvSet]
    by_cases h : kv.1 == k
    · simp [h, List.find?]
    · simp only [h, if_false, List.find?, Bool.false_eq_true]
      simp at h
      simp [h, ih]

theorem find?_kvSet_ne (kvs : List (String × JVal)) (k k' : String) (val : JVal)
    (h : k ≠ k') :
    (kvSet kvs k val).find? (fun kv => kv.1 == k') = kvs.find? (fun kv => kv.1 == k') := by
  have hbe : (k == k') = false := by simp [h]
  induction kvs with
  | nil => simp [kvSet, List.find?, hbe]
  | cons kv rest ih =>
    simp only [kvSet]
    by_cases hk : kv.1 == k
    · have hk1 : kv.1 = k := by simpa using hk
      simp [List.find?, hk1, hbe, hk]
    · simp only [hk, if_false, Bool.false_eq_true, List.find?]
      by_cases hk' : kv.1 == k'
      · simp [hk']
      · simp [hk', ih]

theorem jLookup_objSet_self (kvs : List (String × JVal)) (k : String) (val : JVal) :
    jLookup (objSet (.obj kvs) k val) k = some val := by
  simp [objSet, jLookup, find?_kvSet_self]

theorem jLookup_objSet_ne (kvs : List (String × JVal)) (k k' : String) (val : JVal)
    (h : k ≠ k') :
    jLookup (objSet (.obj kvs) k val) k' = jLookup (.obj kvs) k' := by
  simp [objSet, jLookup, find?_kvSet_ne kvs k k' val h]

theorem kvSet_kvSet (kvs : List (String × JVal)) (k : String) (v w : JVal) :
    kvSet (kvSet kvs k v) k w = kvSet kvs k w := by
  induction kvs with
  | nil => simp [kvSet]
  | cons kv rest ih =>
    simp only [kvSet]
    by_cases h : kv.1 == k
    · simp [kvSet, h]
    · simp [kvSet, h, ih]

theorem objSet_objSet (kvs : List (String × JVal)) (k : String) (v w : JVal) :
    objSet (objSet (.obj kvs) k v) k w = objSet (.obj kvs) k w := by
  simp [objSet, kvSet_kvSet]

theorem pyEqStr_self (t : String) : pyEqStr t (.str t) = true := by
  simp [pyEqStr]

theorem jLookup_kvSet_self (kvs : List (String × JVal)) (k : String) (val : JVal) :
    jLookup (.obj (kvSet kvs k val)) k = some val :=
  jLookup_objSet_self kvs k val

theorem jLookup_kvSet_ne (kvs : List (String × JVal)) (k k' : String) (val : JVal)
    (h : k ≠ k') :
    jLookup (.obj (kvSet kvs k val)) k' = jLookup (.obj kvs) k' :=
  jLookup_objSet_ne kvs k k' val h

theorem selUpdateOne_ok (tag : String) (g : JVal) (h : groupOK g = true) :
    selUpdateOne tag g = .ok (selUpd tag g) := by
  cases g with
  | obj kvs =>
    simp only [groupOK] at h
    cases htag : jLookup (.obj kvs) "tag" with
    | none => simp only [htag] at h; simp at h
    | some tv =>
      simp only [htag] at h
      by_cases hm : (pyEqStr "Latency" tv || pyEqStr "Manual" tv) = true
      · rw [if_pos hm] at h
        cases hout : jLookup (.obj kvs) "outbounds" with
        | none => simp [selUpdateOne, selUpd, htag, hout, hm]
        | some lst =>
          simp only [hout] at h
          cases lst with
          | arr l =>
            by_cases hmem : l.any (pyEqStr tag) = true
            · simp [selUpdateOne, selUpd, htag, hout, hm, pyIn, hmem]
            · simp [selUpdateOne, selUpd, htag, hout, hm, pyIn, hmem]
          | null => simp at h
          | bool b => simp at h
          | num n => simp at h
          | str s => simp at h
          | obj kvs2 => simp at h
      · simp [selUpdateOne, selUpd, htag, hm]
  | null => simp [groupOK] at h
  | bool b => simp [groupOK] at h
  | num n => simp [groupOK] at h
  | str s => simp [groupOK] at h
  | arr l => simp [groupOK] at h

theorem groupOK_selUpd (tag : String) (g : JVal) (h : groupOK g = true) :
    groupOK (selUpd tag g) = true := by
  cases g with
  | obj kvs =>
    simp only [groupOK] at h
    cases htag : jLookup (.obj kvs) "tag" with
    | none => simp only [htag] at h; simp at h
    | some tv =>
      simp only [htag] at h
      by_cases hm : (pyEqStr "Latency" tv || pyEqStr "Manual" tv) = true
      · rw [if_pos hm] at h
        cases hout : jLookup (.obj kvs) "outbounds" with
        | none => simp [selUpd, htag, hout, hm, groupOK]
        | some lst =>
          simp only [hout] at h
          cases lst with
          | arr l =>
            by_cases hmem : l.any (pyEqStr tag) = true
            · simp [selUpd, htag, hout, hm, hmem, groupOK]
            · have hsel : selUpd tag (JVal.obj kvs)
                  = .obj (kvSet kvs "outbounds" (.arr (l ++ [.str tag]))) := by
                simp [selUpd, htag, hout, hm, hmem, objSet]
              rw [hsel]
              have h1 : jLookup (JVal.obj (kvSet kvs "outbounds" (.arr (l ++ [.str tag]))))
                  "tag" = some tv := by
                rw [jLookup_kvSet_ne _ _ _ _ (by decide)]
                exact htag
              simp only [groupOK, h1, hm, if_true, jLookup_kvSet_self]
          | null => simp at h
          | bool b => simp at h
          | num n => simp at h
          | str s => simp at h
          | obj kvs2 => simp at h
      · have hred : selUpd tag (JVal.obj kvs) = JVal.obj kvs := by simp [selUpd, htag, hm]
        rw [hred]
        simp only [groupOK, htag]
        exact h
  | null => simp [groupOK] at h
  | bool b => simp [groupOK] at h
  | num n => simp [groupOK] at h
  | str s => simp [groupOK] at h
  | arr l => simp [groupOK] at h

theorem selUpd_idem (tag : String) (g : JVal) (h : groupOK g = true) :
    selUpd tag (selUpd tag g) = selUpd tag g := by
  cases g with
  | obj kvs =>
    simp only [groupOK] at h
    cases htag : jLookup (.obj kvs) "tag" with
    | none => simp only [htag] at h; simp at h
    | some tv =>
      simp only [htag] at h
      by_cases hm : (pyEqStr "Latency" tv || pyEqStr "Manual" tv) = true
      · rw [if_pos hm] at h
        cases hout : jLookup (.obj kvs) "outbounds" with
        | none => simp [selUpd, htag, hout, hm]
        | some lst =>
          simp only [hout] at h
          cases lst with
          | arr l =>
            by_cases hmem : l.any (pyEqStr tag) = true
            · simp [selUpd, htag, hout, hm, hmem]
            · have hsel : selUpd tag (JVal.obj kvs)
                  = .obj (kvSet kvs "outbounds" (.arr (l ++ [.str tag]))) := by
                simp [selUpd, htag, hout, hm, hmem, objSet]
              rw [hsel]
              have h1 : jLookup (JVal.obj (kvSet kvs "outbounds" (.arr (l ++ [.str tag]))))
                  "tag" = some tv := by
                rw [jLookup_kvSet_ne _ _ _ _ (by decide)]
                exact htag
              have h2 := jLookup_kvSet_self kvs "outbounds" (.arr (l ++ [.str tag]))
              have h3 : (l ++ [JVal.str tag]).any (pyEqStr tag) = true := by
                simp [pyEqStr_self]
              simp only [selUpd, h1, hm, if_true, h2, h3]
          | null => simp at h
          | bool b => simp at h
          | num n => simp at h
          | str s => simp at h
          | obj kvs2 => simp at h
      · simp [selUpd, htag, hm]
  | null => simp [selUpd]
  | bool b => simp [selUpd]
  | num n => simp [selUpd]
  | str s => simp [selUpd]
  | arr l => simp [selUpd]

theorem selUpd_noOutbounds (tag : String) (g : JVal) (h : jLookup g "outbounds" = none) :
    selUpd tag g = g := by
  cases g with
  | obj kvs =>
    simp only [selUpd]
    cases htag : jLookup (.obj kvs) "tag" with
    | none => rfl
    | some tv =>
      by_cases hm : (pyEqStr "Latency" tv || pyEqStr "Manual" tv) = true
      · simp [hm, h]
      · simp [hm]
  | null => rfl
  | bool b => rfl
  | num n => rfl
  | str s => rfl
  | arr l => rfl

theorem obOK_groupOK (ob : JVal) (tag : String) (h : obOK ob tag = true) :
    groupOK ob = true := by
  cases ob with
  | obj kvs =>
    simp only [obOK, Bool.and_eq_true] at h
    cases htag : jLookup (.obj kvs) "tag" with
    | none => simp only [htag] at h; simp at h
    | some tv =>
      simp only [htag] at h
      cases hout : jLookup (.obj kvs) "outbounds" with
      | none =>
        simp only [groupOK, htag]
        by_cases hm : (pyEqStr "Latency" tv || pyEqStr "Manual" tv) = true
        · simp [hm, hout]
        · simp [hm]
      | some lst => simp only [hout] at h; simp at h
  | null => simp [obOK] at h
  | bool b => simp [obOK] at h
  | num n => simp [obOK] at h
  | str s => simp [obOK] at h
  | arr l => simp [obOK] at h

theorem obOK_tag (ob : JVal) (tag : String) (h : obOK ob tag = true) :
    jLookup ob "tag" = some (.str tag) := by
  cases ob with
  | obj kvs =>
    simp only [obOK, Bool.and_eq_true] at h
    cases htag : jLookup (.obj kvs) "tag" with
    | none => simp only [htag] at h; simp at h
    | some tv =>
      simp only [htag] at h
      cases tv with
      | str t =>
        have ht : t = tag := by simpa using h.1
        simp [htag, ht]
      | null => simp at h
      | bool b => simp at h
      | num n => simp at h
      | arr l => simp at h
      | obj kvs2 => simp at h
  | null => simp [obOK] at h
  | bool b => simp [obOK] at h
  | num n => simp [obOK] at h
  | str s => simp [obOK] at h
  | arr l => simp [obOK] at h

theorem obOK_selUpd (ob : JVal) (tag t2 : String) (h : obOK ob tag = true) :
    selUpd t2 ob = ob := by
  apply selUpd_noOutbounds
  cases ob with
  | obj kvs =>
    simp only [obOK, Bool.and_eq_true] at h
    exact Option.isNone_iff_eq_none.mp h.2
  | null => simp [obOK] at h
  | bool b => simp [obOK] at h
  | num n => simp [obOK] at h
  | str s => simp [obOK] at h
  | arr l => simp [obOK] at h

theorem selLoop_ok (tag : String) (gs : List JVal) (h : ∀ g ∈ gs, groupOK g = true) :
    selLoop tag gs = (gs.map (selUpd tag), none) := by
  induction gs with
  | nil => rfl
  | cons g rest ih =>
    have hg := h g (by simp)
    have hrest : ∀ g2 ∈ rest, groupOK g2 = true := fun g2 hm => h g2 (by simp [hm])
    simp [selLoop, selUpdateOne_ok tag g hg, ih hrest]

theorem wfTemplate_elim (tpl : JVal) (h : wfTemplate tpl = true) :
    ∃ kvs obs, tpl = .obj kvs ∧ jLookup tpl "outbounds" = some (.arr obs) ∧
      ∀ g ∈ obs, groupOK g = true := by
  cases tpl with
  | obj kvs =>
    simp only [wfTemplate] at h
    cases hout : jLookup (.obj kvs) "outbounds" with
    | none => simp only [hout] at h; simp at h
    | some lst =>
      simp only [hout] at h
      cases lst with
      | arr obs =>
        refine ⟨kvs, obs, rfl, ?_, ?_⟩
        · rfl
        · simpa [List.all_eq_true] using h
      | null => simp at h
      | bool b => simp at h
      | num n => simp at h
      | str s => simp at h
      | obj kvs2 => simp at h
  | null => simp [wfTemplate, jLookup] at h
  | bool b => simp [wfTemplate, jLookup] at h
  | num n => simp [wfTemplate, jLookup] at h
  | str s => simp [wfTemplate, jLookup] at h
  | arr l => simp [wfTemplate, jLookup] at h

theorem attach_spec (tpl ob : JVal) (tag : String) (obs : List JVal)
    (hwf : wfTemplate tpl = true) (hob : obOK ob tag = true)
    (hout : jLookup tpl "outbounds" = some (.arr obs)) :
    attachOutbound tpl ob tag
      = (objSet tpl "outbounds" (.arr (obs.map (selUpd tag) ++ [ob])), none) := by
  obtain ⟨kvs, obs2, htpl, hout2, hgs⟩ := wfTemplate_elim tpl hwf
  have hobs : obs = obs2 := by
    rw [hout] at hout2
    simpa using hout2
  subst hobs
  subst htpl
  have hall : ∀ g ∈ obs ++ [ob], groupOK g = true := by
    intro g hg
    rcases List.mem_append.mp hg with hg1 | hg2
    · exact hgs g hg1
    · simp at hg2
      subst hg2
      exact obOK_groupOK _ tag hob
  have hmap : (obs ++ [ob]).map (selUpd tag) = obs.map (selUpd tag) ++ [ob] := by
    simp [obOK_selUpd ob tag tag hob]
  simp only [attachOutbound, hout]
  simp only [add_outbound_to_selectors, jLookup_objSet_self]
  rw [selLoop_ok tag (obs ++ [ob]) hall]
  simp only [hmap, objSet_objSet]

theorem attach_wf (tpl ob : JVal) (tag : String) (obs : List JVal)
    (hwf : wfTemplate tpl = true) (hob : obOK ob tag = true)
    (hout : jLookup tpl "outbounds" = some (.arr obs)) :
    wfTemplate (objSet tpl "outbounds" (.arr (obs.map (selUpd tag) ++ [ob]))) = true := by
  obtain ⟨kvs, obs2, htpl, hout2, hgs⟩ := wfTemplate_elim tpl hwf
  have hobs : obs = obs2 := by
    rw [hout] at hout2
    simpa using hout2
  subst hobs
  subst htpl
  simp only [wfTemplate, jLookup_objSet_self, List.all_eq_true]
  intro g hg
  rcases List.mem_append.mp hg with hg1 | hg2
  · obtain ⟨g0, hg0, hgeq⟩ := List.mem_map.mp hg1
    subst hgeq
    exact groupOK_selUpd tag g0 (hgs g0 hg0)
  · simp at hg2
    subst hg2
    exact obOK_groupOK _ tag hob

theorem attach_lookup (tpl : JVal) (kvs : List (String × JVal)) (l : List JVal)
    (htpl : tpl = .obj kvs) :
    jLookup (objSet tpl "outbounds" (.arr l)) "outbounds" = some (.arr l) := by
  subst htpl
  exact jLookup_objSet_self kvs "outbounds" (.arr l)

theorem add_trojan_build_obOK (u : String) (ob : JVal) (tag : String)
    (h : add_trojan_build u = .ok (ob, tag)) : obOK ob tag = true := by
  unfold add_trojan_build at h
  cases hm : trojanMatch u with
  | none => rw [hm] at h; simp at h
  | some m =>
    obtain ⟨pw, s, po, q, f⟩ := m
    rw [hm] at h
    simp only at h
    cases hp : pyInt (.str po) with
    | error e => simp only [hp] at h; simp at h
    | ok p =>
      simp only [hp] at h
      split at h
      · injection h with h1
        injection h1 with hOb hTag
        subst hOb
        subst hTag
        simp [obOK, jLookup, List.find?, objSet, kvSet]
      · injection h with h1
        injection h1 with hOb hTag
        subst hOb
        subst hTag
        simp [obOK, jLookup, List.find?]

theorem vmessFromConfig_obOK (cfg ob : JVal) (tag : String)
    (h : vmessFromConfig cfg = .ok (ob, tag)) : obOK ob tag = true := by
  cases cfg with
  | obj kvs =>
    simp only [vmessFromConfig] at h
    cases hp : pyInt (jGetD (.obj kvs) "port" .null) with
    | error e => simp only [hp] at h; simp at h
    | ok p =>
      simp only [hp] at h
      cases ha : pyInt (jGetD (.obj kvs) "aid" (.num 0)) with
      | error e => simp only [ha] at h; simp at h
      | ok a =>
        simp only [ha] at h
        injection h with h1
        injection h1 with hOb hTag
        subst hOb
        subst hTag
        simp [obOK, jLookup, List.find?]
  | null => simp [vmessFromConfig] at h
  | bool b => simp [vmessFromConfig] at h
  | num n => simp [vmessFromConfig] at h
  | str s => simp [vmessFromConfig] at h
  | arr l => simp [vmessFromConfig] at h

theorem add_vmess_build_obOK (u : String) (ob : JVal) (tag : String)
    (h : add_vmess_build u = .ok (ob, tag)) : obOK ob tag = true := by
  unfold add_vmess_build at h
  cases h1 : pyB64DecodeStr (vmess_base64_content u) with
  | none => rw [h1] at h; simp at h
  | some bytes =>
    rw [h1] at h
    simp only at h
    cases h2 : utf8DecodeStrict bytes with
    | none => rw [h2] at h; simp at h
    | some s =>
      rw [h2] at h
      simp only at h
      cases h3 : jsonParse s with
      | none => rw [h3] at h; simp at h
      | some cfg =>
        rw [h3] at h
        simp only at h
        exact vmessFromConfig_obOK cfg ob tag h

theorem add_vless_build_obOK (u : String) (ob : JVal) (tag : String)
    (h : add_vless_build u = .ok (ob, tag)) : obOK ob tag = true := by
  unfold add_vless_build at h
  cases hm : vlessMatch u with
  | none => rw [hm] at h; simp at h
  | some m =>
    obtain ⟨uuid, s, po, q, f⟩ := m
    rw [hm] at h
    simp only at h
    cases hp : pyInt (.str po) with
    | error e => simp only [hp] at h; simp at h
    | ok p =>
      simp only [hp] at h
      injection h with h1
      injection h1 with hOb hTag
      subst hOb
      subst hTag
      simp [obOK, jLookup, List.find?]

theorem create_ss_v2ray_outbound_obOK (s po m pw opts tag : String)
    (params : List (String × String)) (ob : JVal)
    (h : create_ss_v2ray_outbound s po m pw opts tag params = .ok ob) :
    obOK ob tag = true := by
  unfold create_ss_v2ray_outbound at h
  cases hp : pyInt (.str po) with
  | error e => simp only [hp] at h; simp at h
  | ok p =>
    simp only [hp] at h
    split at h
    · injection h with hOb
      subst hOb
      simp [obOK, jLookup, List.find?]
    · injection h with hOb
      subst hOb
      simp [obOK, jLookup, List.find?]

theorem except_map_pair_ok (E : Except String JVal) (tg : String) (ob : JVal) (tag : String)
    (h : Except.map (fun o => (o, tg)) E = .ok (ob, tag)) : E = .ok ob ∧ tg = tag := by
  cases E with
  | error e => simp [Except.map] at h
  | ok o =>
    simp only [Except.map] at h
    injection h with h1
    injection h1 with hOb hTag
    subst hOb
    exact ⟨rfl, hTag⟩

theorem add_shadowsocks_build_obOK (u : String) (ob : JVal) (tag : String)
    (h : add_shadowsocks_build u = .ok (ob, tag)) : obOK ob tag = true := by
  unfold add_shadowsocks_build at h
  cases hm : ssMatch u with
  | none => rw [hm] at h; simp at h
  | some m =>
    obtain ⟨b64p, s, po, q, f⟩ := m
    rw [hm] at h
    simp only at h
    cases hc : ssDecodeChain b64p with
    | none => simp only [hc] at h; simp at h
    | some mp =>
      obtain ⟨m0, pw⟩ := mp
      simp only [hc] at h
      split at h
      · obtain ⟨hE, hTg⟩ := except_map_pair_ok _ _ _ _ h
        subst hTg
        exact create_ss_v2ray_outbound_obOK _ _ _ _ _ _ _ _ hE
      · cases hp : pyInt (.str po) with
        | error e => simp only [hp] at h; simp at h
        | ok p =>
          simp only [hp] at h
          split at h
          · injection h with h1
            injection h1 with hOb hTag
            subst hOb
            subst hTag
            simp [obOK, jLookup, List.find?, objSet, kvSet]
          · injection h with h1
            injection h1 with hOb hTag
            subst hOb
            subst hTag
            simp [obOK, jLookup, List.find?]

theorem handlerOf_error (build : String → Except String (JVal × String)) (wrap : String)
    (tpl : JVal) (url : String) (e : String) (he : build url = .error e) :
    handlerOf build wrap tpl url = (tpl, some (wrap ++ e)) := by
  simp [handlerOf, he]

theorem handlerOf_ok (build : String → Except String (JVal × String)) (wrap : String)
    (tpl : JVal) (url : String) (ob : JVal) (tag : String) (obs : List JVal)
    (hwf : wfTemplate tpl = true)
    (hob : obOK ob tag = true)
    (hout : jLookup tpl "outbounds" = some (.arr obs))
    (hb : build url = .ok (ob, tag)) :
    handlerOf build wrap tpl url
      = (objSet tpl "outbounds" (.arr (obs.map (selUpd tag) ++ [ob])), none) := by
  simp [handlerOf, hb, attach_spec tpl ob tag obs hwf hob hout]

theorem runLine_unknown (tpl : JVal) (line : String) (h : knownScheme line = false) :
    runLine tpl line = (tpl, none) := by
  simp only [knownScheme, Bool.or_eq_false_iff] at h
  obtain ⟨⟨⟨ha, hb⟩, hc⟩, hd⟩ := h
  simp [runLine, ha, hb, hc, hd]

theorem runLine_known (tpl : JVal) (line : String) (hk : knownScheme line = true) :
    ∃ build wrap,
      (∀ ob tag, build line = .ok (ob, tag) → obOK ob tag = true) ∧
      (∀ tpl2, runLine tpl2 line = handlerOf build wrap tpl2 line) := by
  by_cases h1 : strStartsWith line "vmess://"
  · exact ⟨add_vmess_build, "Invalid VMess configuration format: ",
      fun ob tag => add_vmess_build_obOK line ob tag,
      fun tpl2 => by simp [runLine, h1, add_vmess_to_template]⟩
  · by_cases h2 : strStartsWith line "vless://"
    · exact ⟨add_vless_build, "Invalid VLESS configuration format: ",
        fun ob tag => add_vless_build_obOK line ob tag,
        fun tpl2 => by simp [runLine, h1, h2, add_vless_to_template]⟩
    · by_cases h3 : strStartsWith line "trojan://"
      · exact ⟨add_trojan_build, "Invalid Trojan configuration format: ",
          fun ob tag => add_trojan_build_obOK line ob tag,
          fun tpl2 => by simp [runLine, h1, h2, h3, add_trojan_to_template]⟩
      · by_cases h4 : strStartsWith line "ss://"
        · exact ⟨add_shadowsocks_build, "Invalid Shadowsocks configuration format: ",
            fun ob tag => add_shadowsocks_build_obOK line ob tag,
            fun tpl2 => by simp [runLine, h1, h2, h3, h4, add_shadowsocks_to_template]⟩
        · simp [knownScheme, h1, h2, h3, h4] at hk

theorem runLine_wf (tpl : JVal) (line : String) (hwf : wfTemplate tpl = true) :
    wfTemplate (runLine tpl line).1 = true := by
  by_cases hk : knownScheme line = true
  · obtain ⟨build, wrap, hbOK, hrw⟩ := runLine_known tpl line hk
    rw [hrw tpl]
    cases hb : build line with
    | error e => rw [handlerOf_error build wrap tpl line e hb]; exact hwf
    | ok p =>
      obtain ⟨ob, tag⟩ := p
      obtain ⟨kvs, obs, htpl, hout, hgs⟩ := wfTemplate_elim tpl hwf
      rw [handlerOf_ok build wrap tpl line ob tag obs hwf (hbOK ob tag hb) hout hb]
      exact attach_wf tpl ob tag obs hwf (hbOK ob tag hb) hout
  · rw [runLine_unknown tpl line (by simpa using hk)]
    exact hwf

theorem runLine_err_unchanged (tpl : JVal) (line : String) (hwf : wfTemplate tpl = true)
    (he : (runLine tpl line).2.isSome = true) : (runLine tpl line).1 = tpl := by
  by_cases hk : knownScheme line = true
  · obtain ⟨build, wrap, hbOK, hrw⟩ := runLine_known tpl line hk
    rw [hrw tpl] at he ⊢
    cases hb : build line with
    | error e => rw [handlerOf_error build wrap tpl line e hb]
    | ok p =>
      obtain ⟨ob, tag⟩ := p
      obtain ⟨kvs, obs, htpl, hout, hgs⟩ := wfTemplate_elim tpl hwf
      rw [handlerOf_ok build wrap tpl line ob tag obs hwf (hbOK ob tag hb) hout hb] at he
      simp at he
  · rw [runLine_unknown tpl line (by simpa using hk)]

/-- `tls.enabled` of an outbound. -/
def tlsEnabledOf (ob : JVal) : Option JVal :=
  (jLookup ob "tls").bind (fun t => jLookup t "enabled")

/-- The effective `type` query parameter of a trojan link (default
`"tcp"`), defined when the URL matches the trojan regex. -/
def trojanTypeParam (url : String) : Option String :=
  (trojanMatch url).map (fun m => qslGetD (parse_qsl (m.2.2.2.1.getD "")) "type" "tcp")

/-- C2: for every well-formed trojan link the built outbound has
`tls.enabled == true` unconditionally, and it contains a `transport` key
exactly when the `type` query parameter differs from `"tcp"` (no `type`
parameter, or none equal to `"tcp"`, means no `transport` key at all). -/
theorem trojan_tls_always_transport_iff (url : String) (ob : JVal) (tag : String)
    (h : add_trojan_build url = .ok (ob, tag)) :
    tlsEnabledOf ob = some (.bool true) ∧
    ((jLookup ob "transport").isSome = true ↔ trojanTypeParam url ≠ some "tcp") := by
  unfold add_trojan_build at h
  cases hm : trojanMatch url with
  | none => rw [hm] at h; simp at h
  | some m =>
    obtain ⟨pw, s, po, q, f⟩ := m
    rw [hm] at h
    simp only at h
    cases hp : pyInt (.str po) with
    | error e => simp only [hp] at h; simp at h
    | ok p =>
      simp only [hp] at h
      have htp : trojanTypeParam url
          = some (qslGetD (parse_qsl (q.getD "")) "type" "tcp") := by
        simp [trojanTypeParam, hm]
      split at h
      case isTrue hcond =>
        injection h with h1
        injection h1 with hOb hTag
        subst hOb
        subst hTag
        constructor
        · simp [tlsEnabledOf, objSet, kvSet, jLookup, List.find?]
        · have hne : qslGetD (parse_qsl (q.getD "")) "type" "tcp" ≠ "tcp" := by
            simpa using hcond
          simp [objSet, kvSet, jLookup, List.find?, htp, hne]
      case isFalse hcond =>
        injection h with h1
        injection h1 with hOb hTag
        subst hOb
        subst hTag
        constructor
        · simp [tlsEnabledOf, jLookup, List.find?]
        · have heq : qslGetD (parse_qsl (q.getD "")) "type" "tcp" = "tcp" := by
            simpa using hcond
          simp [jLookup, List.find?, htp, heq]

/-- C2 witness: `trojan://pw@host:443#Node1` (no query). -/
theorem trojan_tls_always_transport_iff_witness :
    tlsEnabledOf (.obj [
      ("type", .str "trojan"),
      ("tag", .str "Trojan - Node1"),
      ("server", .str "host"),
      ("server_port", .num 443),
      ("password", .str "pw"),
      ("tls", .obj [
        ("enabled", .bool true),
        ("server_name", .str ""),
        ("alpn", .arr [])])]) = some (.bool true) ∧
    ((jLookup (JVal.obj [
      ("type", .str "trojan"),
      ("tag", .str "Trojan - Node1"),
      ("server", .str "host"),
      ("server_port", .num 443),
      ("password", .str "pw"),
      ("tls", .obj [
        ("enabled", .bool true),
        ("server_name", .str ""),
        ("alpn", .arr [])])]) "transport").isSome = true
      ↔ trojanTypeParam "trojan://pw@host:443#Node1" ≠ some "tcp") :=
  trojan_tls_always_transport_iff "trojan://pw@host:443#Node1" _ "Trojan - Node1" (by rfl)

/-- C6: `create_ss_v2ray_outbound` returns the same outbound for every
argument tuple regardless of the websocket/TLS flags parsed from the
options string: the result is always the fixed dictionary carrying the
raw `plugin_opts`. -/
theorem create_ss_v2ray_outbound_ignores_flags
    (server port method password plugin_opts tag : String)
    (params : List (String × String)) (p : Int)
    (hp : pyInt (.str port) = .ok p) :
    create_ss_v2ray_outbound server port method password plugin_opts tag params
      = .ok (.obj [("type", .str "shadowsocks"), ("tag", .str tag), ("server", .str server),
          ("server_port", .num p), ("method", .str method), ("password", .str password),
          ("plugin", .str "v2ray-plugin"), ("plugin_opts", .str plugin_opts)]) := by
  unfold create_ss_v2ray_outbound
  simp only [hp]
  split <;> rfl

/-- C6 witness: websocket-and-TLS options still yield the raw
`plugin_opts` outbound. -/
theorem create_ss_v2ray_outbound_ignores_flags_witness :
    pyInt (.str "8388") = .ok 8388 ∧
    create_ss_v2ray_outbound "h" "8388" "aes-256-gcm" "pw" "tls;mode=websocket;path=/x" "T" []
      = .ok (.obj [("type", .str "shadowsocks"), ("tag", .str "T"), ("server", .str "h"),
          ("server_port", .num 8388), ("method", .str "aes-256-gcm"), ("password", .str "pw"),
          ("plugin", .str "v2ray-plugin"), ("plugin_opts", .str "tls;mode=websocket;path=/x")]) :=
  ⟨rfl,
   create_ss_v2ray_outbound_ignores_flags "h" "8388" "aes-256-gcm" "pw"
     "tls;mode=websocket;path=/x" "T" [] 8388 rfl⟩

/-- C7 counterexample: at `type="http"`, `host="h"`, `path=""` the vless
builder emits `path "/"` while the vmess `net` switch on the same
net/host/path emits `path ""` — the transports differ. -/
theorem vless_vmess_transport_differ_http_empty_path :
    jLookup (get_vless_transport_config "http" "h" "" []) "path" = some (.str "/") ∧
    jLookup (get_vmess_transport_config
        (.obj [("net", .str "http"), ("host", .str "h"), ("path", .str "")])) "path"
      = some (.str "") ∧
    get_vless_transport_config "http" "h" "" []
      ≠ get_vmess_transport_config
          (.obj [("net", .str "http"), ("host", .str "h"), ("path", .str "")]) := by
  refine ⟨rfl, rfl, ?_⟩
  intro heq
  have h1 : (some (JVal.str "/") : Option JVal) = some (JVal.str "") := by
    calc (some (JVal.str "/") : Option JVal)
        = jLookup (get_vless_transport_config "http" "h" "" []) "path" := rfl
      _ = jLookup (get_vmess_transport_config
            (.obj [("net", .str "http"), ("host", .str "h"), ("path", .str "")])) "path" := by
          rw [heq]
      _ = some (JVal.str "") := rfl
  injection h1 with h2
  injection h2 with h3
  exact absurd h3 (by decide)

/-- C7 amended: with a vmess config holding exactly the same net/host/path
values, the vless transport builder agrees with the vmess `net` switch for
every type/host/path combination except `type == "http"` with an empty
path (where vless emits `path "/"` and vmess emits `path ""`); the
vmess-only inner-http special case does not fire since the config has no
`type` member. -/
theorem vless_vmess_transport_agree (t hs p : String) (params : List (String × String))
    (hex : ¬ (t = "http" ∧ p = "")) :
    get_vless_transport_config t hs p params
      = get_vmess_transport_config
          (.obj [("net", .str t), ("host", .str hs), ("path", .str p)]) := by
  have hnet : jGetD (JVal.obj [("net", .str t), ("host", .str hs), ("path", .str p)])
      "net" (.str "tcp") = .str t := by simp [jGetD, jLookup, List.find?]
  have hhost : jGetD (JVal.obj [("net", .str t), ("host", .str hs), ("path", .str p)])
      "host" (.str "") = .str hs := by simp [jGetD, jLookup, List.find?]
  have hhostn : jGetD (JVal.obj [("net", .str t), ("host", .str hs), ("path", .str p)])
      "host" .null = .str hs := by simp [jGetD, jLookup, List.find?]
  have hpath : jGetD (JVal.obj [("net", .str t), ("host", .str hs), ("path", .str p)])
      "path" (.str "/") = .str p := by simp [jGetD, jLookup, List.find?]
  have htype : jGetD (JVal.obj [("net", .str t), ("host", .str hs), ("path", .str p)])
      "type" .null = .null := by simp [jGetD, jLookup, List.find?]
  by_cases h1 : t = "ws"
  · subst h1
    simp [get_vless_transport_config, get_vmess_transport_config, hnet, hhost, hpath, pyEqStr]
  · by_cases h2 : t = "grpc"
    · subst h2
      simp [get_vless_transport_config, get_vmess_transport_config, hnet, hpath, pyEqStr,
        jGetD, jLookup, List.find?]
    · by_cases h3 : t = "http"
      · subst h3
        have hp : p ≠ "" := fun hp0 => hex ⟨rfl, hp0⟩
        simp [get_vless_transport_config, get_vmess_transport_config, hnet, hhostn, hpath,
          pyEqStr, pyTruthy, hp]
      · by_cases h4 : t = "tcp"
        · subst h4
          simp [get_vless_transport_config, get_vmess_transport_config, hnet, htype, pyEqStr]
        · have e1 : ("ws" == t) = false := by simp [Ne.symm h1]
          have e2 : ("grpc" == t) = false := by simp [Ne.symm h2]
          have e3 : ("http" == t) = false := by simp [Ne.symm h3]
          have e4 : ("tcp" == t) = false := by simp [Ne.symm h4]
          simp [get_vless_transport_config, get_vmess_transport_config, hnet, pyEqStr,
            h1, h2, h3, h4, e1, e2, e3, e4]

/-- C7 witness: the `ws` case with empty path agrees. -/
theorem vless_vmess_transport_agree_witness :
    ¬ (("ws" : String) = "http" ∧ ("" : String) = "") ∧
    get_vless_transport_config "ws" "h" "" []
      = get_vmess_transport_config
          (.obj [("net", .str "ws"), ("host", .str "h"), ("path", .str "")]) :=
  ⟨by decide, vless_vmess_transport_agree "ws" "h" "" [] (by decide)⟩

theorem pyReplaceL_len_le (old : List Char) (hold : old ≠ []) :
    ∀ fuel s, (pyReplaceL fuel old [] s).length ≤ s.length := by
  intro fuel
  induction fuel with
  | zero => intro s; simp [pyReplaceL]
  | succ n ih =>
    intro s
    cases s with
    | nil => simp [pyReplaceL]
    | cons c rest =>
      rw [pyReplaceL]
      split
      case isTrue hp =>
        have hd := ih ((c :: rest).drop old.length)
        simp only [List.nil_append]
        calc (pyReplaceL n old [] ((c :: rest).drop old.length)).length
            ≤ ((c :: rest).drop old.length).length := hd
          _ ≤ (c :: rest).length := by simp [List.length_drop]
      case isFalse hp =>
        split
        case isTrue he =>
          simp at he
          exact absurd he hold
        case isFalse he =>
          simp only [List.length_cons]
          exact Nat.succ_le_succ (ih rest)

theorem pyReplaceL_len_lt (old : List Char) (hold : old ≠ []) :
    ∀ fuel s, s.length ≤ fuel → strContainsL old s = true
      → (pyReplaceL fuel old [] s).length < s.length := by
  intro fuel
  induction fuel with
  | zero =>
    intro s hs hc
    have hnil : s = [] := List.length_eq_zero.mp (Nat.le_zero.mp hs)
    subst hnil
    simp [strContainsL] at hc
    exact absurd hc hold
  | succ n ih =>
    intro s hs hc
    cases s with
    | nil =>
      simp [strContainsL] at hc
      exact absurd hc hold
    | cons c rest =>
      rw [pyReplaceL]
      split
      case isTrue hp =>
        have hlen : 0 < old.length := List.length_pos.mpr hold
        have hd := pyReplaceL_len_le old hold n ((c :: rest).drop old.length)
        simp only [List.nil_append]
        have h1 : ((c :: rest).drop old.length).length = (c :: rest).length - old.length := by
          simp [List.length_drop]
        have h2 : 0 < (c :: rest).length := by simp
        omega
      case isFalse hp =>
        split
        case isTrue he =>
          simp at he
          exact absurd he hold
        case isFalse he =>
          have hpre : ¬ old.isPrefixOf (c :: rest) = true := fun hcon => hp ⟨hold, hcon⟩
          have hcrest : strContainsL old rest = true := by
            simp only [strContainsL, Bool.or_eq_true] at hc
            rcases hc with hc1 | hc2
            · exact absurd hc1 hpre
            · exact hc2
          have hr : rest.length ≤ n := by
            simp only [List.length_cons] at hs
            omega
          have := ih rest hr hcrest
          simp only [List.length_cons]
          omega

theorem pyReplaceL_prefix_step (old new s : List Char) (fuel : Nat) (hold : old ≠ []) :
    pyReplaceL (fuel + 1) old new (old ++ s) = new ++ pyReplaceL fuel old new s := by
  cases hol : old with
  | nil => exact absurd hol hold
  | cons c oldrest =>
    simp only [List.cons_append]
    rw [pyReplaceL]
    rw [if_pos]
    · rw [show (c :: (oldrest ++ s)) = (c :: oldrest) ++ s from rfl,
        show ((c :: oldrest) ++ s).drop (c :: oldrest).length = s from List.drop_left _ _]
    · constructor
      · simp
      · have hpr : (c :: oldrest) <+: (c :: oldrest) ++ s := List.prefix_append _ _
        rw [List.cons_append] at hpr
        exact List.isPrefixOf_iff_prefix.mpr hpr

/-- C10: `vmess_url.replace("vmess://", "")` removes every occurrence of
the substring, not only the leading prefix: whenever the payload after
the scheme itself contains `"vmess://"`, the computed `base64_content`
differs from the prefix-stripped payload (so the content handed to the
base64 decoder differs from what prefix stripping would give). -/
theorem vmess_scheme_replace_all (rest : String)
    (h : strContains "vmess://" rest = true) :
    vmess_base64_content ("vmess://" ++ rest) ≠ rest := by
  intro heq
  have hdata : (vmess_base64_content ("vmess://" ++ rest)).data = rest.data := by rw [heq]
  have hlist : pyReplaceL (("vmess://" ++ rest).length + 1) "vmess://".toList []
      ("vmess://" ++ rest).toList = rest.toList := hdata
  have happ : ("vmess://" ++ rest).toList = "vmess://".toList ++ rest.toList := rfl
  rw [happ] at hlist
  have hlenapp : ("vmess://" ++ rest).length = 8 + rest.length := by
    have h8 : "vmess://".length = 8 := rfl
    calc ("vmess://" ++ rest).length = "vmess://".length + rest.length := by
          simp [String.length_append]
      _ = 8 + rest.length := by rw [h8]
  rw [hlenapp] at hlist
  rw [show (8 + rest.length + 1) = (8 + rest.length) + 1 from rfl] at hlist
  rw [pyReplaceL_prefix_step "vmess://".toList [] rest.toList (8 + rest.length)
    (by decide)] at hlist
  simp only [List.nil_append] at hlist
  have hrl : rest.toList.length = rest.length := rfl
  have hlt := pyReplaceL_len_lt "vmess://".toList (by decide) (8 + rest.length) rest.toList
    (by omega) h
  rw [hlist] at hlt
  exact absurd hlt (by omega)

/-- C10 witness: a payload containing `"vmess://"` in the middle. -/
theorem vmess_scheme_replace_all_witness :
    strContains "vmess://" "AAvmess://BB" = true ∧
    vmess_base64_content ("vmess://" ++ "AAvmess://BB") ≠ "AAvmess://BB" :=
  ⟨by decide, vmess_scheme_replace_all "AAvmess://BB" (by decide)⟩

/-- C8 counterexample: for the payload `{"ps":"","port":1}` (base64
`eyJwcyI6IiIsInBvcnQiOjF9`) the `ps` key is present and empty, yet the
produced tag is `"VMess - "`, not `"VMess - vmess-outbound"` as the
claim requires for a falsy `ps`. -/
theorem vmess_tag_empty_ps_not_default :
    ((pyB64DecodeStr (vmess_base64_content "vmess://eyJwcyI6IiIsInBvcnQiOjF9")).bind
        (fun bs => (utf8DecodeStrict bs).bind jsonParse)).bind
        (fun cfg => jLookup cfg "ps") = some (.str "") ∧
    (add_vmess_build "vmess://eyJwcyI6IiIsInBvcnQiOjF9").toOption.map Prod.snd
      = some "VMess - " ∧
    ¬ (add_vmess_build "vmess://eyJwcyI6IiIsInBvcnQiOjF9").toOption.map Prod.snd
      = some "VMess - vmess-outbound" :=
  ⟨rfl, by decide, by decide⟩

/-- C8 amended: the tag is `"VMess - "` followed by `str(ps)` whenever the
`ps` key is present — even when its value is empty or null — and
`"VMess - vmess-outbound"` only when the key is absent; the outbound
carries this tag. -/
theorem vmess_tag_rule (cfg ob : JVal) (tag : String)
    (h : vmessFromConfig cfg = .ok (ob, tag)) :
    tag = (match jLookup cfg "ps" with
           | some v => "VMess - " ++ pyStr v
           | none => "VMess - vmess-outbound") ∧
    jLookup ob "tag" = some (.str tag) := by
  cases cfg with
  | obj kvs =>
    simp only [vmessFromConfig] at h
    cases hp : pyInt (jGetD (.obj kvs) "port" .null) with
    | error e => simp only [hp] at h; simp at h
    | ok p =>
      simp only [hp] at h
      cases ha : pyInt (jGetD (.obj kvs) "aid" (.num 0)) with
      | error e => simp only [ha] at h; simp at h
      | ok a =>
        simp only [ha] at h
        injection h with h1
        injection h1 with hOb hTag
        subst hOb
        subst hTag
        constructor
        · cases hps : jLookup (.obj kvs) "ps" with
          | some v => simp [jGetD, hps]
          | none => simp [jGetD, hps, pyStr]
        · simp [jLookup, List.find?]
  | null => simp [vmessFromConfig] at h
  | bool b => simp [vmessFromConfig] at h
  | num n => simp [vmessFromConfig] at h
  | str s => simp [vmessFromConfig] at h
  | arr l => simp [vmessFromConfig] at h

/-- C8 witness: a payload with `ps` present. -/
theorem vmess_tag_rule_witness :
    ("VMess - X" : String)
      = (match jLookup (.obj [("ps", JVal.str "X"), ("port", JVal.num 1)]) "ps" with
         | some v => "VMess - " ++ pyStr v
         | none => "VMess - vmess-outbound") ∧
    jLookup (.obj [
      ("type", .str "vmess"),
      ("tag", .str "VMess - X"),
      ("server", .null),
      ("server_port", .num 1),
      ("uuid", .null),
      ("security", .str "auto"),
      ("alter_id", .num 0),
      ("tls", .obj [
        ("enabled", .bool false),
        ("server_name", .str ""),
        ("insecure", .bool false)]),
      ("transport", .obj [("type", .str "tcp")])]) "tag" = some (.str "VMess - X") :=
  vmess_tag_rule (.obj [("ps", JVal.str "X"), ("port", JVal.num 1)]) _ "VMess - X" (by rfl)

theorem splitFirstL_spec (sep : Char) :
    ∀ cs a b, splitFirstL sep cs = some (a, b)
      → cs = a ++ sep :: b ∧ a.all (fun c => c ≠ sep) = true := by
  intro cs
  induction cs with
  | nil => intro a b h; simp [splitFirstL] at h
  | cons c rest ih =>
    intro a b h
    simp only [splitFirstL] at h
    by_cases hc : c == sep
    · rw [if_pos hc] at h
      injection h with h1
      injection h1 with ha hb
      subst ha
      subst hb
      have : c = sep := by simpa using hc
      subst this
      simp
    · rw [if_neg hc] at h
      cases hr : splitFirstL sep rest with
      | none => rw [hr] at h; simp at h
      | some p =>
        rw [hr] at h
        simp only [Option.map] at h
        injection h with h1
        injection h1 with ha hb
        subst ha
        subst hb
        obtain ⟨h2, h3⟩ := ih p.1 p.2 hr
        constructor
        · simp [h2]
        · simp only [List.all_cons, h3, Bool.and_true]
          simpa using hc

/-- C5: the shadowsocks userinfo is URL-decoded, then base64-decoded,
then split at the FIRST `:` into method and password (the password may
contain `:`); a regex mismatch raises the format error while any failure
of the decode chain raises the distinct decode error; and a present
`encryption` query parameter overrides the decoded method. -/
theorem ss_decode_chain_spec (url : String) :
    (ssMatch url = none →
      add_shadowsocks_build url = .error "Invalid Shadowsocks URL format") ∧
    (∀ u s po q f, ssMatch url = some (u, s, po, q, f) →
      (ssDecodeChain u = none →
        add_shadowsocks_build url = .error "Invalid base64 encoding in Shadowsocks URL") ∧
      (∀ m pw, ssDecodeChain u = some (m, pw) →
        ∀ ob tag, add_shadowsocks_build url = .ok (ob, tag) →
          jLookup ob "method" = some (.str (qslGetD (parse_qsl (q.getD "")) "encryption" m)) ∧
          jLookup ob "password" = some (.str pw))) ∧
    (∀ dec m pw, splitFirst dec ':' = some (m, pw) →
      dec = m ++ ":" ++ pw ∧ m.toList.all (fun c => c ≠ ':') = true) := by
  refine ⟨?_, ?_, ?_⟩
  · intro hm
    unfold add_shadowsocks_build
    rw [hm]
  · intro u s po q f hm
    constructor
    · intro hc
      unfold add_shadowsocks_build
      rw [hm]
      simp only
      rw [hc]
    · intro m pw hc ob tag h
      unfold add_shadowsocks_build at h
      rw [hm] at h
      simp only at h
      rw [hc] at h
      simp only at h
      split at h
      · obtain ⟨hE, hTg⟩ := except_map_pair_ok _ _ _ _ h
        cases hp : pyInt (.str po) with
        | error e =>
          rw [create_ss_v2ray_outbound, hp] at hE
          simp at hE
        | ok p =>
          rw [create_ss_v2ray_outbound_ignores_flags _ _ _ _ _ _ _ p hp] at hE
          injection hE with hOb
          subst hOb
          constructor
          · simp [jLookup, List.find?]
          · simp [jLookup, List.find?]
      · cases hp : pyInt (.str po) with
        | error e => simp only [hp] at h; simp at h
        | ok p =>
          simp only [hp] at h
          split at h
          · injection h with h1
            injection h1 with hOb hTag
            subst hOb
            constructor
            · simp [objSet, kvSet, jLookup, List.find?]
            · simp [objSet, kvSet, jLookup, List.find?]
          · injection h with h1
            injection h1 with hOb hTag
            subst hOb
            constructor
            · simp [jLookup, List.find?]
            · simp [jLookup, List.find?]
  · intro dec m pw h
    unfold splitFirst at h
    cases hs : splitFirstL ':' dec.toList with
    | none => rw [hs] at h; simp at h
    | some p =>
      rw [hs] at h
      simp only [Option.map] at h
      injection h with h1
      injection h1 with ha hb
      obtain ⟨h2, h3⟩ := splitFirstL_spec ':' dec.toList p.1 p.2 hs
      constructor
      · have hd : dec.data = m.data ++ ':' :: pw.data := by
          rw [← ha, ← hb]
          exact h2
        have hd2 : (m ++ ":" ++ pw).data = m.data ++ ':' :: pw.data := by
          show (m.data ++ [':']) ++ pw.data = m.data ++ ':' :: pw.data
          simp
        apply String.ext
        rw [hd, hd2]
      · have hTL : m.toList = p.1 := by subst ha; rfl
        rw [hTL]
        exact h3

/-- C5 witness: `ss://base64("aes-256-gcm:secret")@host:8388#Node%20SS`. -/
theorem ss_decode_chain_spec_witness :
    ssMatch "ss://YWVzLTI1Ni1nY206c2VjcmV0@host:8388#Node%20SS"
      = some ("YWVzLTI1Ni1nY206c2VjcmV0", "host", "8388", none, some "Node%20SS") ∧
    ssDecodeChain "YWVzLTI1Ni1nY206c2VjcmV0" = some ("aes-256-gcm", "secret") ∧
    add_shadowsocks_build "ss://YWVzLTI1Ni1nY206c2VjcmV0@host:8388#Node%20SS"
      = .ok (.obj [("type", .str "shadowsocks"), ("tag", .str "Shadowsocks - Node SS"),
          ("server", .str "host"), ("server_port", .num 8388),
          ("method", .str "aes-256-gcm"), ("password", .str "secret")],
          "Shadowsocks - Node SS") ∧
    jLookup (.obj [("type", .str "shadowsocks"), ("tag", .str "Shadowsocks - Node SS"),
        ("server", .str "host"), ("server_port", .num 8388),
        ("method", .str "aes-256-gcm"), ("password", .str "secret")]) "method"
      = some (.str (qslGetD (parse_qsl ((none : Option String).getD ""))
          "encryption" "aes-256-gcm")) ∧
    jLookup (.obj [("type", .str "shadowsocks"), ("tag", .str "Shadowsocks - Node SS"),
        ("server", .str "host"), ("server_port", .num 8388),
        ("method", .str "aes-256-gcm"), ("password", .str "secret")]) "password"
      = some (.str "secret") :=
  ⟨rfl, rfl, rfl,
    ((ss_decode_chain_spec "ss://YWVzLTI1Ni1nY206c2VjcmV0@host:8388#Node%20SS").2.1
      "YWVzLTI1Ni1nY206c2VjcmV0" "host" "8388" none (some "Node%20SS") rfl).2
      "aes-256-gcm" "secret" rfl _ "Shadowsocks - Node SS" rfl⟩

theorem add_vmess_build_err (url : String) :
    (match add_vmess_build url with
     | .error _ => true
     | .ok _ => false) = vmessDecodeFails url := by
  unfold add_vmess_build vmessDecodeFails
  cases h1 : pyB64DecodeStr (vmess_base64_content url) with
  | none => rfl
  | some bytes =>
    simp only
    cases h2 : utf8DecodeStrict bytes with
    | none => rfl
    | some s =>
      simp only
      cases h3 : jsonParse s with
      | none => rfl
      | some cfg =>
        simp only
        cases cfg with
        | obj kvs =>
          simp only [vmessFromConfig]
          cases hp : pyInt (jGetD (.obj kvs) "port" .null) with
          | error e => rfl
          | ok p =>
            simp only
            cases ha : pyInt (jGetD (.obj kvs) "aid" (.num 0)) with
            | error e => rfl
            | ok a => rfl
        | null => rfl
        | bool b => rfl
        | num n => rfl
        | str s2 => rfl
        | arr l => rfl

/-- C1 counterexample: the decodable payload `{"port":1}` (base64
`eyJwb3J0IjoxfQ==`) is missing both `add` and `id`, yet
`add_vmess_to_template` raises nothing and appends an outbound with null
`server` and null `uuid`. -/
theorem vmess_no_raise_on_missing_add_id :
    ((pyB64DecodeStr (vmess_base64_content "vmess://eyJwb3J0IjoxfQ==")).bind
        (fun bs => (utf8DecodeStrict bs).bind jsonParse)).isSome = true ∧
    (add_vmess_to_template SINGBOX_TEMPLATE "vmess://eyJwb3J0IjoxfQ==").2 = none ∧
    ((lastOutboundOf (add_vmess_to_template SINGBOX_TEMPLATE "vmess://eyJwb3J0IjoxfQ==").1).bind
        (fun ob => jLookup ob "server")) = some .null ∧
    ((lastOutboundOf (add_vmess_to_template SINGBOX_TEMPLATE "vmess://eyJwb3J0IjoxfQ==").1).bind
        (fun ob => jLookup ob "uuid")) = some .null :=
  ⟨by decide, by decide, rfl, rfl⟩

/-- C1 amended: on a well-formed template the vmess handler raises
exactly when the decode chain fails — base64 (after replace-all scheme
stripping), UTF-8, or JSON decoding fails, the payload is not a JSON
object, or `int()` fails on `port` (absent or non-numeric) or on `aid`
(present and non-numeric).  Absent `add` or `id` do NOT raise: the
outbound is built with null `server`/`uuid`. -/
theorem vmess_failure_condition (url : String) (tpl : JVal)
    (hwf : wfTemplate tpl = true) :
    (add_vmess_to_template tpl url).2.isSome = vmessDecodeFails url := by
  obtain ⟨kvs, obs, htpl, hout, hgs⟩ := wfTemplate_elim tpl hwf
  have herr := add_vmess_build_err url
  cases hb : add_vmess_build url with
  | error e =>
    rw [hb] at herr
    rw [add_vmess_to_template, handlerOf_error _ _ _ _ _ hb]
    simp [← herr]
  | ok p =>
    obtain ⟨ob, tag⟩ := p
    rw [hb] at herr
    rw [add_vmess_to_template,
      handlerOf_ok _ _ tpl url ob tag obs hwf (add_vmess_build_obOK url ob tag hb) hout hb]
    simp [← herr]

/-- C1 witness: instantiated at the sing-box template and a link whose
payload is not valid base64-decodable JSON. -/
theorem vmess_failure_condition_witness :
    wfTemplate SINGBOX_TEMPLATE = true ∧
    (add_vmess_to_template SINGBOX_TEMPLATE "vmess://notbase64!!").2.isSome
      = vmessDecodeFails "vmess://notbase64!!" :=
  ⟨by decide, vmess_failure_condition "vmess://notbase64!!" SINGBOX_TEMPLATE (by decide)⟩

theorem selUpd_lookup_arr (tag : String) (g tv : JVal) (L : List JVal)
    (h1 : jLookup g "tag" = some tv)
    (h2 : (pyEqStr "Latency" tv || pyEqStr "Manual" tv) = true)
    (h3 : jLookup g "outbounds" = some (.arr L)) :
    jLookup (selUpd tag g) "outbounds"
      = some (.arr (if L.any (pyEqStr tag) then L else L ++ [.str tag])) := by
  cases g with
  | obj kvs =>
    by_cases hmem : L.any (pyEqStr tag) = true
    · simp [selUpd, h1, h2, h3, hmem]
    · simp only [selUpd, h1, h2, h3]
      rw [if_neg hmem, if_neg hmem]
      exact jLookup_objSet_self kvs "outbounds" (.arr (L ++ [.str tag]))
  | null => simp [jLookup] at h1
  | bool b => simp [jLookup] at h1
  | num n => simp [jLookup] at h1
  | str s => simp [jLookup] at h1
  | arr l => simp [jLookup] at h1

theorem selUpd_unmatched (tag : String) (g tv : JVal)
    (h1 : jLookup g "tag" = some tv)
    (h2 : (pyEqStr "Latency" tv || pyEqStr "Manual" tv) = false) :
    selUpd tag g = g := by
  cases g with
  | obj kvs => simp [selUpd, h1, h2]
  | null => simp [jLookup] at h1
  | bool b => simp [jLookup] at h1
  | num n => simp [jLookup] at h1
  | str s => simp [jLookup] at h1
  | arr l => simp [jLookup] at h1

/-- C3: a successfully handled line appends exactly one outbound to the
template's `outbounds` array; every existing entry is updated by the
registration step, which appends the new tag to the `outbounds`
reference list of exactly the groups tagged `Latency`/`Manual` (and only
when the tag is not already a member, preserving order); and running the
same line again appends a second copy of the outbound while leaving
every group reference list unchanged. -/
theorem line_appends_once_and_registers (tpl : JVal) (line : String)
    (hwf : wfTemplate tpl = true) (hk : knownScheme line = true)
    (hok : (runLine tpl line).2 = none) :
    ∃ obs ob tag,
      jLookup tpl "outbounds" = some (.arr obs) ∧
      jLookup ob "tag" = some (.str tag) ∧
      jLookup (runLine tpl line).1 "outbounds"
        = some (.arr (obs.map (selUpd tag) ++ [ob])) ∧
      (∀ g tv L, jLookup g "tag" = some tv →
        (pyEqStr "Latency" tv || pyEqStr "Manual" tv) = true →
        jLookup g "outbounds" = some (.arr L) →
        jLookup (selUpd tag g) "outbounds"
          = some (.arr (if L.any (pyEqStr tag) then L else L ++ [.str tag]))) ∧
      (∀ g tv, jLookup g "tag" = some tv →
        (pyEqStr "Latency" tv || pyEqStr "Manual" tv) = false → selUpd tag g = g) ∧
      ((runLine (runLine tpl line).1 line).2 = none ∧
        jLookup (runLine (runLine tpl line).1 line).1 "outbounds"
          = some (.arr ((obs.map (selUpd tag) ++ [ob]) ++ [ob]))) := by
  obtain ⟨kvs, obs, htpl, hout, hgs⟩ := wfTemplate_elim tpl hwf
  obtain ⟨build, wrap, hbOK, hrw⟩ := runLine_known tpl line hk
  simp only [hrw] at hok ⊢
  cases hb : build line with
  | error e =>
    rw [handlerOf_error _ _ _ _ _ hb] at hok
    simp at hok
  | ok p =>
    obtain ⟨ob, tag⟩ := p
    have hob := hbOK ob tag hb
    have hstep1 := handlerOf_ok build wrap tpl line ob tag obs hwf hob hout hb
    have hwf1 := attach_wf tpl ob tag obs hwf hob hout
    have hout1 := attach_lookup tpl kvs (obs.map (selUpd tag) ++ [ob]) htpl
    have hstep2 := handlerOf_ok build wrap
      (objSet tpl "outbounds" (.arr (obs.map (selUpd tag) ++ [ob]))) line ob tag
      (obs.map (selUpd tag) ++ [ob]) hwf1 hob hout1 hb
    have hidem : (obs.map (selUpd tag) ++ [ob]).map (selUpd tag)
        = obs.map (selUpd tag) ++ [ob] := by
      rw [List.map_append, List.map_map]
      congr 1
      · apply List.map_congr_left
        intro g hg
        exact selUpd_idem tag g (hgs g hg)
      · simp [obOK_selUpd ob tag tag hob]
    refine ⟨obs, ob, tag, hout, obOK_tag ob tag hob, ?_, ?_, ?_, ?_, ?_⟩
    · rw [hstep1]
      exact hout1
    · exact fun g tv L h1 h2 h3 => selUpd_lookup_arr tag g tv L h1 h2 h3
    · exact fun g tv h1 h2 => selUpd_unmatched tag g tv h1 h2
    · rw [hstep1]
      simp [hstep2]
    · rw [hstep1]
      simp only [hstep2]
      have htpl1 : objSet tpl "outbounds" (.arr (obs.map (selUpd tag) ++ [ob]))
          = .obj (kvSet kvs "outbounds" (.arr (obs.map (selUpd tag) ++ [ob]))) := by
        rw [htpl]
        rfl
      rw [attach_lookup _ _ _ htpl1, hidem]

/-- C3 witness: the sing-box template and a concrete trojan line. -/
theorem line_appends_once_and_registers_witness :
    wfTemplate SINGBOX_TEMPLATE = true ∧
    knownScheme "trojan://pw@host:443#Node1" = true ∧
    (runLine SINGBOX_TEMPLATE "trojan://pw@host:443#Node1").2 = none ∧
    (∃ obs ob tag,
      jLookup SINGBOX_TEMPLATE "outbounds" = some (.arr obs) ∧
      jLookup ob "tag" = some (.str tag) ∧
      jLookup (runLine SINGBOX_TEMPLATE "trojan://pw@host:443#Node1").1 "outbounds"
        = some (.arr (obs.map (selUpd tag) ++ [ob])) ∧
      (∀ g tv L, jLookup g "tag" = some tv →
        (pyEqStr "Latency" tv || pyEqStr "Manual" tv) = true →
        jLookup g "outbounds" = some (.arr L) →
        jLookup (selUpd tag g) "outbounds"
          = some (.arr (if L.any (pyEqStr tag) then L else L ++ [.str tag]))) ∧
      (∀ g tv, jLookup g "tag" = some tv →
        (pyEqStr "Latency" tv || pyEqStr "Manual" tv) = false → selUpd tag g = g) ∧
      ((runLine (runLine SINGBOX_TEMPLATE "trojan://pw@host:443#Node1").1
          "trojan://pw@host:443#Node1").2 = none ∧
        jLookup (runLine (runLine SINGBOX_TEMPLATE "trojan://pw@host:443#Node1").1
            "trojan://pw@host:443#Node1").1 "outbounds"
          = some (.arr ((obs.map (selUpd tag) ++ [ob]) ++ [ob])))) :=
  ⟨by decide, by decide, by decide,
    line_appends_once_and_registers SINGBOX_TEMPLATE "trojan://pw@host:443#Node1"
      (by decide) (by decide) (by decide)⟩

theorem convertLines_append (tpl : JVal) (a b : List String) :
    convertLines tpl (a ++ b) = convertLines (convertLines tpl a) b := by
  simp [convertLines, List.foldl_append]

theorem convertLines_wf (tpl : JVal) (ls : List String) (hwf : wfTemplate tpl = true) :
    wfTemplate (convertLines tpl ls) = true := by
  induction ls generalizing tpl with
  | nil => exact hwf
  | cons l rest ih =>
    simp only [convertLines, List.foldl_cons]
    exact ih (runLine tpl l).1 (runLine_wf tpl l hwf)

/-- C4: line failures are local and atomic — on a well-formed template,
a batch containing a line whose handler raises produces exactly the
document of the batch with that line removed: the failing line appends
nothing, registers no tag, and later lines are still processed. -/
theorem failing_line_is_local (tpl : JVal) (pre post : List String) (l : String)
    (hwf : wfTemplate tpl = true)
    (he : (runLine (convertLines tpl pre) l).2.isSome = true) :
    convertLines tpl (pre ++ l :: post) = convertLines tpl (pre ++ post) := by
  rw [convertLines_append, convertLines_append]
  have hwfp := convertLines_wf tpl pre hwf
  have hstep := runLine_err_unchanged (convertLines tpl pre) l hwfp he
  simp only [convertLines, List.foldl_cons]
  simp only [convertLines] at hstep
  rw [hstep]

/-- C4 witness: a malformed vmess line between two well-formed lines. -/
theorem failing_line_is_local_witness :
    wfTemplate SINGBOX_TEMPLATE = true ∧
    (runLine (convertLines SINGBOX_TEMPLATE ["trojan://pw@host:443#Node1"])
      "vmess://%").2.isSome = true ∧
    convertLines SINGBOX_TEMPLATE
        (["trojan://pw@host:443#Node1"] ++ "vmess://%"
          :: ["ss://YWVzLTI1Ni1nY206c2VjcmV0@host:8388#NodeSS"])
      = convertLines SINGBOX_TEMPLATE
          (["trojan://pw@host:443#Node1"] ++ ["ss://YWVzLTI1Ni1nY206c2VjcmV0@host:8388#NodeSS"]) :=
  ⟨by decide, by decide,
    failing_line_is_local SINGBOX_TEMPLATE ["trojan://pw@host:443#Node1"]
      ["ss://YWVzLTI1Ni1nY206c2VjcmV0@host:8388#NodeSS"] "vmess://%" (by decide) (by decide)⟩

/-- C9: conversion is deterministic — any serialization of the document
produced from a given template and input is byte-identical across runs,
and the deep copy taken per run (`json.loads(json.dumps(...))`, the
identity on JSON-representable values) leaves the shared template equal
to itself, so no run can mutate it.  In this pure embedding mutation is
modelled by state passing, so the hyperproperty holds by construction:
`convertDoc` operates only on its own copy. -/
theorem convert_deterministic (serialize : JVal → String) (template : JVal)
    (input_text : String) :
    (convertDoc template input_text).map serialize
      = (convertDoc template input_text).map serialize ∧
    deepCopy template = template :=
  ⟨rfl, rfl⟩
